import Mathlib

/-!
Verification of the Linear-webhook connector's change-detection and
notification-routing core, as a shallow embedding of the TypeScript source.

Conventions of the embedding:
* optional TS values (`x?: T`, `T | undefined | null`) become `Option T`;
* JavaScript string truthiness (`if (s)`) is `truthyS : Option String → Bool`,
  where both a missing value and the empty string are falsy;
* the JS `||` default operator on strings is `jsOr` (empty string is replaced);
* the Linear entity gateway (`linearApi`) is an explicit function argument:
  a lookup returns `Except String (Option α)` — `Except.error` is a thrown
  exception, `Except.ok none` is a null/not-found response;
* asynchronous code is modelled by explicit values: a flow's outcome is the
  `Option` of the HTTP POST it issues to the notification sink.
-/

set_option autoImplicit false

namespace LinearConnector

/-- JS truthiness of an optional string: `undefined`, `null` and `""` are falsy. -/
def truthyS (o : Option String) : Bool := !((o.getD "") = "")

/-- `String.prototype.toLowerCase` (character-wise, kernel-reducible model). -/
def toLowerStr (s : String) : String := String.mk (s.data.map Char.toLower)

/-- A whitespace character as matched by the regex class `\s` (core cases). -/
def isWsChar (c : Char) : Bool :=
  c == ' ' || c == '\t' || c == '\n' || c == '\r' || c == '\x0B' || c == '\x0C'

/-- `String.prototype.trim` (kernel-reducible model). -/
def trimStr (s : String) : String :=
  String.mk (((s.data.dropWhile isWsChar).reverse.dropWhile isWsChar).reverse)

/-- JS `o || d` on an optional string: the default replaces missing and empty values. -/
def jsOr (o : Option String) (d : String) : String :=
  if truthyS o then o.getD "" else d

/-- Label object carried by Linear webhook payloads (`id`, `name`, `color`, `parentId?`). -/
structure Label where
  id : String
  name : String
  color : String
  parentId : Option String
deriving Repr, DecidableEq

/-- Workflow state reference (`id`, `name`, `type`). -/
structure StateRef where
  id : String
  name : String
  type : String
deriving Repr, DecidableEq

/-- User reference (`id`, `name`, `email?`). -/
structure UserRef where
  id : String
  name : String
  email : Option String
deriving Repr, DecidableEq

/-- Cycle reference from the payload (`id`, `name?`). -/
structure CycleRef where
  id : String
  name : Option String
deriving Repr, DecidableEq

/-- Project reference from the payload (`id`, `name?`). -/
structure ProjectRef where
  id : String
  name : Option String
deriving Repr, DecidableEq

/-- Team reference from the payload (`id`, `name`). -/
structure TeamRef where
  id : String
  name : String
deriving Repr, DecidableEq

/-- `LinearWebhookPayload.data` — the issue snapshot carried by the webhook. -/
structure IssueData where
  id : String
  title : Option String
  description : Option String
  estimate : Option Nat
  state : Option StateRef
  assignee : Option UserRef
  team : Option TeamRef
  project : Option ProjectRef
  cycle : Option CycleRef
  priority : Option Nat
  labels : Option (List Label)
  url : Option String
  identifier : Option String
deriving Repr, DecidableEq

/-- `LinearWebhookPayload.updatedFrom` — the partial prior snapshot. -/
structure UpdatedFrom where
  stateId : Option String
  priority : Option Nat
  assigneeId : Option String
  cycleId : Option String
  projectId : Option String
  title : Option String
  description : Option String
  estimate : Option Nat
deriving Repr, DecidableEq

/-- The webhook envelope fields consumed by the issue pipeline. -/
structure LinearWebhookPayload where
  action : String
  data : IssueData
  updatedFrom : Option UpdatedFrom
  organizationId : String
deriving Repr, DecidableEq

/-- Enriched cycle details fetched through `linearApi.getCycleDetails`. -/
structure CycleDetails where
  id : String
  name : String
  completedAt : Option String
  startsAt : Option String
  endsAt : Option String
deriving Repr, DecidableEq

/-- Diff entry for the workflow state field. -/
structure StatusDiff where
  changed : Bool
  current : StateRef
  previous : Option StateRef
deriving Repr, DecidableEq

/-- Diff entry for the priority field. -/
structure PriorityDiff where
  changed : Bool
  current : Nat
  previous : Option Nat
deriving Repr, DecidableEq

/-- Diff entry for the assignee field. -/
structure AssigneeDiff where
  changed : Bool
  current : Option UserRef
  previous : Option UserRef
deriving Repr, DecidableEq

/-- Diff entry for the cycle field. -/
structure CycleDiff where
  changed : Bool
  current : Option CycleRef
  previous : Option CycleRef
deriving Repr, DecidableEq

/-- Diff entry for the project field. -/
structure ProjectDiff where
  changed : Bool
  current : Option ProjectRef
  previous : Option ProjectRef
deriving Repr, DecidableEq

/-- Diff entry for the title field. -/
structure TitleDiff where
  changed : Bool
  current : String
  previous : Option String
deriving Repr, DecidableEq

/-- Diff entry for the description field. -/
structure DescriptionDiff where
  changed : Bool
  current : Option String
  previous : Option String
deriving Repr, DecidableEq

/-- Diff entry for the estimate field. -/
structure EstimateDiff where
  changed : Bool
  current : Option Nat
  previous : Option Nat
deriving Repr, DecidableEq

/-- Diff entry for the labels field (heuristic detection). -/
structure LabelsDiff where
  changed : Bool
  added : List Label
  removed : List Label
  current : List Label
  previous : List Label
deriving Repr, DecidableEq

/-- `IssueChangeDetection` — the structured diff plus the cycle enrichment bag. -/
structure IssueChangeDetection where
  hasChanges : Bool
  labels : Option LabelsDiff
  status : Option StatusDiff
  assignee : Option AssigneeDiff
  priority : Option PriorityDiff
  cycle : Option CycleDiff
  project : Option ProjectDiff
  title : Option TitleDiff
  description : Option DescriptionDiff
  estimate : Option EstimateDiff
  cycleDetails : Option CycleDetails
deriving Repr, DecidableEq

/-- Entity-gateway lookup of a workflow state by id (`linearApi.getIssueState`). -/
def LookupState : Type := String → Except String (Option StateRef)

/-- Entity-gateway lookup of cycle details by id (`linearApi.getCycleDetails`). -/
def LookupCycle : Type := String → Except String (Option CycleDetails)

/-- The sentinel flagged label (`'🔴 FLAGGED'` in the source; the repository dump
shows the same emoji double-encoded in some files, normalised here). -/
def flaggedLabel : String := "🔴 FLAGGED"

/-- Status comparison of `performSimplifiedComparison`: requires truthy prior and
current state ids, different ids, and a successful non-null gateway resolution of
the prior state; a thrown or null lookup yields no status diff. -/
def statusDiffOf (data : IssueData) (upd : UpdatedFrom) (lS : LookupState) :
    Option StatusDiff :=
  match upd.stateId, data.state with
  | some sid, some st =>
    if sid ≠ "" ∧ st.id ≠ "" ∧ st.id ≠ sid then
      match lS sid with
      | .ok (some prev) => some ⟨true, st, some prev⟩
      | .ok none => none
      | .error _ => none
    else none
  | _, _ => none

/-- Priority comparison: fires when `updatedFrom.priority` is present and the raw
current priority (possibly absent) differs; the reported current defaults with
`|| 0`. -/
def priorityDiffOf (data : IssueData) (upd : UpdatedFrom) : Option PriorityDiff :=
  match upd.priority with
  | some p => if data.priority ≠ some p then some ⟨true, data.priority.getD 0, some p⟩ else none
  | none => none

/-- Assignee comparison: compares the current assignee id against the raw prior id;
the previous value is the raw id with the placeholder name `'Unknown'` (or absent
when the prior id is falsy). -/
def assigneeDiffOf (data : IssueData) (upd : UpdatedFrom) : Option AssigneeDiff :=
  match upd.assigneeId with
  | some aid =>
    if data.assignee.map UserRef.id ≠ some aid then
      some ⟨true, data.assignee, if aid ≠ "" then some ⟨aid, "Unknown", none⟩ else none⟩
    else none
  | none => none

/-- Cycle comparison, analogous to the assignee comparison. -/
def cycleDiffOf (data : IssueData) (upd : UpdatedFrom) : Option CycleDiff :=
  match upd.cycleId with
  | some cid =>
    if data.cycle.map CycleRef.id ≠ some cid then
      some ⟨true, data.cycle, if cid ≠ "" then some ⟨cid, some "Unknown"⟩ else none⟩
    else none
  | none => none

/-- Project comparison, analogous to the assignee comparison. -/
def projectDiffOf (data : IssueData) (upd : UpdatedFrom) : Option ProjectDiff :=
  match upd.projectId with
  | some pid =>
    if data.project.map ProjectRef.id ≠ some pid then
      some ⟨true, data.project, if pid ≠ "" then some ⟨pid, some "Unknown"⟩ else none⟩
    else none
  | none => none

/-- Title comparison: raw comparison of the optional current title against the
prior title; the reported current defaults with `|| ''`. -/
def titleDiffOf (data : IssueData) (upd : UpdatedFrom) : Option TitleDiff :=
  match upd.title with
  | some t => if data.title ≠ some t then some ⟨true, jsOr data.title "", some t⟩ else none
  | none => none

/-- Description comparison (no defaulting of the reported current value). -/
def descriptionDiffOf (data : IssueData) (upd : UpdatedFrom) : Option DescriptionDiff :=
  match upd.description with
  | some d => if data.description ≠ some d then some ⟨true, data.description, some d⟩ else none
  | none => none

/-- Estimate comparison (no defaulting of the reported current value). -/
def estimateDiffOf (data : IssueData) (upd : UpdatedFrom) : Option EstimateDiff :=
  match upd.estimate with
  | some e => if data.estimate ≠ some e then some ⟨true, data.estimate, some e⟩ else none
  | none => none

/-- Heuristic label-change detection: labels are reported changed when the flagged
sentinel is present, or when the issue has labels and no other field changed. -/
def labelsDiffOf (data : IssueData) (otherHasChanges : Bool) : Option LabelsDiff :=
  let currentLabels := data.labels.getD []
  let hasFlaggedLabel := currentLabels.any (fun l => l.name = flaggedLabel)
  if hasFlaggedLabel ∨ (currentLabels ≠ [] ∧ otherHasChanges = false) then
    some ⟨true, if hasFlaggedLabel then [⟨"", flaggedLabel, "", some ""⟩] else [],
      [], currentLabels, []⟩
  else none

/-- Cycle-details enrichment: fetched whenever the issue references a cycle with a
truthy id; a thrown gateway error degrades to no enrichment. -/
def cycleDetailsOf (data : IssueData) (lC : LookupCycle) : Option CycleDetails :=
  if truthyS (data.cycle.map CycleRef.id) then
    match lC ((data.cycle.map CycleRef.id).getD "") with
    | .ok v => v
    | .error _ => none
  else none

/-- `performSimplifiedComparison` of `IssueChangeDetector`: per-field raw
comparisons, the label heuristic applied after the other fields, and the
unconditional cycle-details enrichment. -/
def performSimplifiedComparison (data : IssueData) (upd : UpdatedFrom)
    (lS : LookupState) (lC : LookupCycle) : IssueChangeDetection :=
  let status := statusDiffOf data upd lS
  let priority := priorityDiffOf data upd
  let assignee := assigneeDiffOf data upd
  let cycle := cycleDiffOf data upd
  let project := projectDiffOf data upd
  let title := titleDiffOf data upd
  let description := descriptionDiffOf data upd
  let estimate := estimateDiffOf data upd
  let hasOther := status.isSome || priority.isSome || assignee.isSome || cycle.isSome ||
    project.isSome || title.isSome || description.isSome || estimate.isSome
  let labels := labelsDiffOf data hasOther
  { hasChanges := hasOther || labels.isSome
    labels := labels
    status := status
    assignee := assignee
    priority := priority
    cycle := cycle
    project := project
    title := title
    description := description
    estimate := estimate
    cycleDetails := cycleDetailsOf data lC }

/-- `detectChanges` of `IssueChangeDetector`: create actions mark every field
changed from the snapshot; update actions with an `updatedFrom` delta run the
simplified comparison; anything else reports no changes. -/
def detectChanges (payload : LinearWebhookPayload) (lS : LookupState)
    (lC : LookupCycle) : IssueChangeDetection :=
  if payload.action = "create" then
    { hasChanges := true
      labels := some ⟨true, payload.data.labels.getD [], [], payload.data.labels.getD [], []⟩
      status := some ⟨true, payload.data.state.getD ⟨"", "Unknown", "unstarted"⟩, none⟩
      assignee := some ⟨true, payload.data.assignee, none⟩
      priority := some ⟨true, payload.data.priority.getD 0, none⟩
      cycle := some ⟨true, payload.data.cycle, none⟩
      project := some ⟨true, payload.data.project, none⟩
      title := some ⟨true, jsOr payload.data.title "", none⟩
      description := some ⟨true, payload.data.description, none⟩
      estimate := some ⟨true, payload.data.estimate, none⟩
      cycleDetails := cycleDetailsOf payload.data lC }
  else if payload.action = "update" then
    match payload.updatedFrom with
    | some upd => performSimplifiedComparison payload.data upd lS lC
    | none =>
      { hasChanges := false, labels := none, status := none, assignee := none,
        priority := none, cycle := none, project := none, title := none,
        description := none, estimate := none, cycleDetails := none }
  else
    { hasChanges := false, labels := none, status := none, assignee := none,
      priority := none, cycle := none, project := none, title := none,
      description := none, estimate := none, cycleDetails := none }

/-- An HTTP POST to a Slack webhook sink: target URL and JSON `text` body. -/
structure SlackPost where
  url : String
  text : String
deriving Repr, DecidableEq

/-- `sendFiremanValidationSlackNotification`: skips when the webhook URL is not
configured, otherwise issues one POST with the urgent-ticket message. -/
def sendFiremanValidationSlackNotification (webhookUrl : Option String)
    (issueNumber issueUrl issueTitle : String) : Option SlackPost :=
  match webhookUrl with
  | none => none
  | some u =>
    some ⟨u, "🚨 An `URGENT` ticket was transitioned / updated inside `Fireman Validation` <"
      ++ issueUrl ++ "|" ++ issueNumber ++ " " ++ issueTitle ++ ">"⟩

/-- `processFiremanValidationFlow`: requires a status, priority or title change,
current state name case-insensitively `'fireman validation'`, and priority 1. -/
def processFiremanValidationFlow (webhookUrl : Option String) (data : IssueData)
    (cd : IssueChangeDetection) : Option SlackPost :=
  let statusChanged := (cd.status.map StatusDiff.changed).getD false
  let priorityChanged := (cd.priority.map PriorityDiff.changed).getD false
  let titleChanged := (cd.title.map TitleDiff.changed).getD false
  if !statusChanged && !priorityChanged && !titleChanged then none
  else
    let isFiremanValidation := data.state.map (fun s => toLowerStr s.name) == some "fireman validation"
    let isUrgent := data.priority == some 1
    if isFiremanValidation && isUrgent then
      sendFiremanValidationSlackNotification webhookUrl
        (jsOr data.identifier "N/A")
        (jsOr data.url ("https://linear.app/issue/" ++ data.id))
        (jsOr data.title "Untitled Issue")
    else none

/-- `sendCycleStatusSlackNotification`: skips when the webhook URL is not
configured; the message branches on the flagged-label reason. -/
def sendCycleStatusSlackNotification (webhookUrl : Option String)
    (issueNumber issueUrl issueTitle statusOrLabel cycleName : String) : Option SlackPost :=
  match webhookUrl with
  | none => none
  | some u =>
    if statusOrLabel == flaggedLabel then
      some ⟨u, "🚩 Issue flagged in active cycle \"" ++ cycleName ++ "\": <"
        ++ issueUrl ++ "|" ++ issueNumber ++ " " ++ issueTitle ++ ">"⟩
    else
      some ⟨u, "✅ Issue moved to \"" ++ statusOrLabel ++ "\" in active cycle \"" ++ cycleName
        ++ "\": <" ++ issueUrl ++ "|" ++ issueNumber ++ " " ++ issueTitle ++ ">"⟩

/-- The decision part of `processCycleStatusFlow`: team gate, change gate, flagged
case with precedence, then the transition-into-target status case. Returns the
`changeReason` when a relevant change is found. -/
def cycleStatusReason (data : IssueData) (cd : IssueChangeDetection) : Option String :=
  if data.team.map TeamRef.name == some "Engineering - PRODUCT" then
    let labelsChanged := (cd.labels.map LabelsDiff.changed).getD false
    let statusChanged := (cd.status.map StatusDiff.changed).getD false
    if !labelsChanged && !statusChanged then none
    else
      let currentStateName := data.state.map (fun s => toLowerStr s.name)
      let currentLabels := (data.labels.getD []).map Label.name
      let isFlaggedWithLabel := currentLabels.contains flaggedLabel
      let isQATesting := currentStateName == some "qa testing"
      let isDone := currentStateName == some "done"
      if isFlaggedWithLabel && labelsChanged then some flaggedLabel
      else if statusChanged && (isQATesting || isDone) then
        let previousName := (cd.status.bind StatusDiff.previous).map (fun s => toLowerStr s.name)
        if isQATesting && !(previousName == some "qa testing") then some "QA Testing"
        else if isDone && !(previousName == some "done") then some "Done"
        else none
      else none
  else none

/-- `processCycleStatusFlow`: the decision part followed by the cycle gates — the
issue must reference a cycle, enriched cycle details must be available, and the
cycle must be active (`completedAt` falsy); then the Slack send is invoked. -/
def processCycleStatusFlow (webhookUrl : Option String) (data : IssueData)
    (cd : IssueChangeDetection) : Option SlackPost :=
  match cycleStatusReason data cd with
  | none => none
  | some changeReason =>
    if !truthyS (data.cycle.map CycleRef.id) then none
    else
      match cd.cycleDetails with
      | none => none
      | some cycleDetails =>
        if truthyS cycleDetails.completedAt then none
        else
          sendCycleStatusSlackNotification webhookUrl
            (jsOr data.identifier "N/A")
            (jsOr data.url ("https://linear.app/issue/" ++ data.id))
            (jsOr data.title "Untitled Issue")
            changeReason cycleDetails.name

/-!
The flow fan-out of `processIssueWebhook`. The three flows are started together
and joined with `await Promise.all([...])` inside the processor's single
`try`/`catch`. A started JS promise is never cancelled, so every flow's effect
list runs to completion even when another flow rejects; the `Promise.all` join
itself is fail-fast, and a rejection escapes to the processor-level `catch`,
which returns a failed (`success: false`) webhook result. `FlowRun` abstracts
one flow invocation by the effects it performs and its settled outcome.
-/

/-- One flow invocation: the outbound effects it performs while running, and its
settlement (`ok` resolved, `error` a thrown exception / rejected promise). -/
structure FlowRun where
  effects : List String
  result : Except String Unit
deriving Repr

/-- Outcome of the issue processor's flow fan-out: the webhook-level success flag
and the effects that were executed. -/
structure FanoutOutcome where
  success : Bool
  effects : List String
deriving Repr, DecidableEq

/-- Settlement combination of `Promise.all`: an already-rejected join stays
rejected, otherwise the next run's settlement decides. -/
def joinStep (acc : Except String Unit) (r : FlowRun) : Except String Unit :=
  match acc with
  | .error e => .error e
  | .ok _ => r.result

/-- `Promise.all` over started promises: all effects execute (no cancellation);
the join resolves only when every run resolved, and rejects otherwise. -/
def promiseAllJoin (runs : List FlowRun) : List String × Except String Unit :=
  ((runs.map FlowRun.effects).flatten, runs.foldl joinStep (.ok ()))

/-- The `try { await Promise.all([...]) } catch` step of `processIssueWebhook`:
a rejection of the join is caught at the webhook-processor boundary and turns the
whole result into `success: false`. -/
def runIssueFlows (runs : List FlowRun) : FanoutOutcome :=
  match promiseAllJoin runs with
  | (effs, .ok _) => ⟨true, effs⟩
  | (effs, .error _) => ⟨false, effs⟩

/-!
The Slite document store and the release-document formatter (`slite-api.ts`),
and the release processor `processStatusReleaseChange` (the current
structured-logging variant with the manual-lock skip). The store is a list of
documents; the clock (`new Date()`) enters as explicit `releaseDateString`
(today + 7 days, `YYYY-MM-DD`) and `now` (ISO timestamp) arguments; a created
document's server-assigned id is the explicit `newDocId` argument. Store writes
are modelled as succeeding (the source's null-result branches only produce a
failure report after the content decision this development reasons about).
-/

/-- A ticket record as passed to `formatReleaseDocument`. -/
structure RTicket where
  id : String
  title : String
  state : String
  url : Option String
  identifier : Option String
  estimate : Option Nat
  assignee : Option UserRef
deriving Repr, DecidableEq

/-- The fixed bucket states of `generateStoryPointsTables`. -/
def tsStates : List String := ["Todo", "In Progress", "DEV Review", "QA Testing", "Done"]

/-- The per-state accumulator initialised to zero for every tracked state. -/
def zeroBuckets : List (String × Nat) := tsStates.map (fun s => (s, 0))

/-- `stats[state] += points` on a keyed accumulator (no-op for untracked keys). -/
def bumpBucket (b : List (String × Nat)) (st : String) (p : Nat) : List (String × Nat) :=
  b.map (fun kv => if kv.1 == st then (kv.1, kv.2 + p) else kv)

/-- `stats[state] || 0` — read a bucket value, defaulting to zero. -/
def bucketVal (b : List (String × Nat)) (st : String) : Nat :=
  ((b.find? (fun kv => kv.1 == st)).map Prod.snd).getD 0

/-- One `tickets.forEach` step of `generateStoryPointsTables`: ensure the
assignee entry exists (insertion order preserved, like a JS `Map`), then add the
ticket's points to the assignee bucket and the totals bucket when the state is
tracked. -/
def statsStep (acc : List (String × List (String × Nat)) × List (String × Nat))
    (t : RTicket) : List (String × List (String × Nat)) × List (String × Nat) :=
  let assigneeName := jsOr (t.assignee.map UserRef.name) "Unassigned"
  let storyPoints := t.estimate.getD 0
  let table := if (acc.1.find? (fun kv => kv.1 == assigneeName)).isSome then acc.1
    else acc.1 ++ [(assigneeName, zeroBuckets)]
  if tsStates.contains t.state then
    (table.map (fun kv =>
        if kv.1 == assigneeName then (kv.1, bumpBucket kv.2 t.state storyPoints) else kv),
      bumpBucket acc.2 t.state storyPoints)
  else (table, acc.2)

/-- The assignee-stats map and the per-state totals of `generateStoryPointsTables`. -/
def computeStats (tickets : List RTicket) :
    List (String × List (String × Nat)) × List (String × Nat) :=
  tickets.foldl statsStep ([], zeroBuckets)

/-- `Object.values(stats).reduce((sum, points) => sum + points, 0)`. -/
def assigneeTotal (b : List (String × Nat)) : Nat :=
  b.foldl (fun s kv => s + kv.2) 0

/-- `Number.prototype.toFixed(1)` on an exact non-negative rational. -/
def ratToFixed1 (q : Rat) : String :=
  let n : Int := Rat.floor (q * 10 + 1 / 2)
  toString (n / 10) ++ "." ++ toString (n % 10)

/-- The per-state percentage values of one assignee's percentage-table row. -/
def percentValues (b : List (String × Nat)) : List Rat :=
  tsStates.map (fun st => ((bucketVal b st : Rat) / (assigneeTotal b : Rat)) * 100)

/-- The percentage-table rows as values: an assignee with a zero bucket total
returns the empty row, which the source filters out of the table. -/
def percentageRowsVals (tickets : List RTicket) : List (String × List Rat) :=
  (computeStats tickets).1.filterMap (fun kv =>
    if assigneeTotal kv.2 = 0 then none else some (kv.1, percentValues kv.2))

/-- The rendered story-points table of `generateStoryPointsTables`. -/
def storyPointsTableOf (tickets : List RTicket) : String :=
  let stats := computeStats tickets
  let header := "| Person | Todo | In Progress | DEV Review | QA Testing | Done | Total |\n|--------|------|-------------|------------|------------|------|-------|"
  let rows := String.intercalate "\n" (stats.1.map (fun kv =>
    "| " ++ kv.1 ++ " | "
      ++ String.intercalate " | " (tsStates.map (fun st => toString (bucketVal kv.2 st)))
      ++ " | " ++ toString (assigneeTotal kv.2) ++ " |"))
  let grandTotal := assigneeTotal stats.2
  let totalRow := "| **Total** | "
    ++ String.intercalate " | " (tsStates.map (fun st => toString (bucketVal stats.2 st)))
    ++ " | **" ++ toString grandTotal ++ "** |"
  header ++ "\n" ++ rows ++ "\n" ++ totalRow

/-- The rendered percentage table of `generateStoryPointsTables`: assignees with
a zero total are skipped; the totals row divides by the grand total (rendering
`0.0` when that is zero). -/
def percentageTableOf (tickets : List RTicket) : String :=
  let stats := computeStats tickets
  let header := "| Person | Todo % | In Progress % | DEV Review % | QA Testing % | Done % |\n|--------|--------|---------------|--------------|--------------|--------|"
  let rows := String.intercalate "\n" ((percentageRowsVals tickets).map (fun r =>
    "| " ++ r.1 ++ " | " ++ String.intercalate " | " (r.2.map (fun q => ratToFixed1 q ++ "%")) ++ " |"))
  let grandTotal := assigneeTotal stats.2
  let totalRow := "| **Total** | "
    ++ String.intercalate " | " (tsStates.map (fun st =>
        (if 0 < grandTotal then ratToFixed1 (((bucketVal stats.2 st : Rat) / (grandTotal : Rat)) * 100)
         else "0.0") ++ "%"))
    ++ " |"
  header ++ "\n" ++ rows ++ "\n" ++ totalRow

/-- `generateStoryPointsTables`: both summary tables, or placeholders when there
are no tickets. -/
def generateStoryPointsTables (tickets : List RTicket) : String × String :=
  if tickets.length = 0 then ("No tickets found.", "No tickets found.")
  else (storyPointsTableOf tickets, percentageTableOf tickets)

/-- JS template interpolation of a possibly-undefined string. -/
def optStr (o : Option String) : String := o.getD "undefined"

/-- Total story points of `formatReleaseDocument` (absent estimates count 0). -/
def totalStoryPoints (tickets : List RTicket) : Nat :=
  tickets.foldl (fun sum t => sum + t.estimate.getD 0) 0

/-- `formatReleaseDocument`: front matter, heading, total, ticket table, the two
assignee tables, and the generation-timestamp footer. -/
def formatReleaseDocument (labelName releaseDate status : String)
    (tickets : List RTicket) (now : String) : String :=
  let tableHeader := "| State | Story Points | Ticket |\n|--------|--------------|--------|"
  let ticketRows := String.intercalate "\n" (tickets.map (fun t =>
    let titleCell := if truthyS t.url then
        "[[" ++ optStr t.identifier ++ "] " ++ t.title ++ "](" ++ t.url.getD "" ++ ")"
      else t.title
    "| " ++ (if toLowerStr t.state == "done" then "✅" else "❌") ++ " " ++ t.state
      ++ " | " ++ toString (t.estimate.getD 0) ++ " | " ++ titleCell ++ " |"))
  let ticketTable := if 0 < tickets.length then tableHeader ++ "\n" ++ ticketRows
    else "No tickets found."
  let tables := generateStoryPointsTables tickets
  "\n__________\nrelease_status: " ++ status ++ "\nrelease_at: " ++ releaseDate
    ++ "\n__________\n\n# " ++ labelName ++ " Release overview\n\n**Total Story Points: "
    ++ toString (totalStoryPoints tickets) ++ "**\n\n### Tickets\n\n" ++ ticketTable
    ++ "\n\n### Story Points by Assignee\n\n" ++ tables.1
    ++ "\n\n### Story Points Completion Percentages\n\n" ++ tables.2
    ++ "\n\nGenerated: " ++ now ++ "\n"

/-- A document stored in the Slite collection. -/
structure SliteDoc where
  id : String
  title : String
  content : String
deriving Repr, DecidableEq

/-- Scan for the first occurrence of `key` and return the remaining characters. -/
def findAfter (key : List Char) : List Char → Option (List Char)
  | [] => none
  | c :: rest =>
    if key.isPrefixOf (c :: rest) then some ((c :: rest).drop key.length)
    else findAfter key rest

/-- The `\s*(.+)` tail of the metadata regexes followed by `.trim()`: skip
whitespace, capture a non-empty run up to the end of the line, trim it. -/
def captureLine (l : List Char) : Option String :=
  let cap := (l.dropWhile isWsChar).takeWhile (fun c => c != '\n' && c != '\r')
  if cap.isEmpty then none else some (trimStr (String.mk cap))

/-- One field of `parseDocumentMetadata`: the regex `key + \s*(.+)` applied to
the document content, with the capture trimmed. -/
def parseMetaValue (key : String) (content : String) : Option String :=
  (findAfter key.data content.data).bind captureLine

/-- The parsed `release_status` front-matter field of a document. -/
def parseReleaseStatus (content : String) : Option String :=
  parseMetaValue "release_status:" content

/-- The parsed `release_at` front-matter field of a document. -/
def parseReleaseAt (content : String) : Option String :=
  parseMetaValue "release_at:" content

/-- `sliteApi.getDocumentByTitle`: linear scan of the collection comparing
lowercased titles. -/
def getDocumentByTitle (store : List SliteDoc) (title : String) : Option SliteDoc :=
  store.find? (fun d => toLowerStr d.title == toLowerStr title)

/-- `sliteApi.updateDocument`: replace the content of the document with this id. -/
def updateDocumentStore (store : List SliteDoc) (docId content : String) : List SliteDoc :=
  store.map (fun d => if d.id == docId then { d with content := content } else d)

/-- `ReleaseChangeContext` from the webhook types. -/
structure ReleaseChangeContext where
  issueId : String
  issueTitle : String
  labelName : String
  labelId : String
  previousState : Option StateRef
  currentState : Option StateRef
  organizationId : String
deriving Repr, DecidableEq

/-- Outcome record of `processStatusReleaseChange` (success flag and the
`action` tag: `skipped`, `updated` or `created`). -/
structure ReleaseResult where
  success : Bool
  action : Option String
deriving Repr, DecidableEq

/-- `processStatusReleaseChange` (current variant): look up the release document
by label name; an existing document whose parsed `release_status` is anything
other than `not_released` is skipped without touching the store; an existing
`not_released` document is regenerated preserving its stored `release_at`; a
missing document is created with the fresh 7-day release date. -/
def processStatusReleaseChange (ctx : ReleaseChangeContext) (allTickets : List RTicket)
    (releaseDateString now newDocId : String) (store : List SliteDoc) :
    ReleaseResult × List SliteDoc :=
  match getDocumentByTitle store ctx.labelName with
  | some existingDocument =>
    let existingStatus := (parseReleaseStatus existingDocument.content).getD "not_released"
    let existingReleaseDate := (parseReleaseAt existingDocument.content).getD releaseDateString
    if existingStatus ≠ "not_released" then
      (⟨true, some "skipped"⟩, store)
    else
      let finalReleaseDate :=
        if existingStatus = "not_released" then existingReleaseDate else releaseDateString
      let updatedContent :=
        formatReleaseDocument ctx.labelName finalReleaseDate "not_released" allTickets now
      (⟨true, some "updated"⟩, updateDocumentStore store existingDocument.id updatedContent)
  | none =>
    let newContent :=
      formatReleaseDocument ctx.labelName releaseDateString "not_released" allTickets now
    (⟨true, some "created"⟩, store ++ [⟨newDocId, ctx.labelName, newContent⟩])

/-!
The retrospective generator (`cycle-processor.ts`). The generation clock enters
as the explicit `now` ISO-timestamp argument (used by the `completed_at`
front-matter fallback, date part only, and by the trailing `Generated:` line).
Emojis that appear double-encoded in the repository dump are normalised to the
intended characters. The per-issue comment fetch is an explicit function
argument; a fetch failure degrades that issue to no comments and a zero
reopened count, as in the source.
-/

/-- A comment on an issue as consumed by the retrospective generator. -/
structure RComment where
  id : String
  body : String
  userName : String
  createdAt : String
deriving Repr, DecidableEq

/-- `CycleIssue` of the cycle processor. -/
structure CycleIssue where
  id : String
  title : String
  identifier : String
  url : String
  estimate : Option Nat
  state : StateRef
  assignee : Option UserRef
  comments : List RComment
  reopenedCount : Nat
deriving Repr, DecidableEq

/-- `CycleData` of the cycle processor. -/
structure CycleData where
  id : String
  title : Option String
  name : Option String
  completedAt : Option String
  startsAt : Option String
  endsAt : Option String
deriving Repr, DecidableEq

/-- `AssigneeStats` of the cycle processor. -/
structure AssigneeStats where
  name : String
  totalStoryPoints : Nat
  statusBreakdown : List (String × Nat)
  statusPercentages : List (String × Rat)
deriving Repr, DecidableEq

/-- The fixed reopen keyword list scanned over comment bodies. -/
def reopenKeywords : List String :=
  ["reopened", "back to todo", "back to in progress", "moved to todo",
   "moved to in progress", "reverted", "rolled back"]

/-- Substring containment on character lists (`String.prototype.includes`). -/
def hasSubstr : List Char → List Char → Bool
  | pat, [] => pat.isEmpty
  | pat, c :: rest => pat.isPrefixOf (c :: rest) || hasSubstr pat rest

/-- Count of comments whose lowercased body contains a reopen keyword. -/
def countReopens (comments : List RComment) : Nat :=
  (comments.filter (fun c =>
    reopenKeywords.any (fun k => hasSubstr ((toLowerStr k).data) ((toLowerStr c.body).data)))).length

/-- `analyzeIssuesAndComments`: attach each issue's fetched comments and its
reopen count; a failed fetch degrades to no comments and zero reopens. -/
def analyzeIssuesAndComments (issues : List CycleIssue)
    (fetchComments : String → Except String (List RComment)) : List CycleIssue :=
  issues.map (fun i =>
    match fetchComments i.id with
    | .ok comments => { i with comments := comments, reopenedCount := countReopens comments }
    | .error _ => { i with comments := [], reopenedCount := 0 })

/-- `statusBreakdown[status] = (statusBreakdown[status] || 0) + points`, with JS
object property insertion order. -/
def breakdownBump (b : List (String × Nat)) (st : String) (p : Nat) : List (String × Nat) :=
  if (b.find? (fun kv => kv.1 == st)).isSome then
    b.map (fun kv => if kv.1 == st then (kv.1, kv.2 + p) else kv)
  else b ++ [(st, p)]

/-- One fold step of `calculateAssigneeStats` over the assignee map. -/
def assigneeStatsStep (m : List (String × (Nat × List (String × Nat))))
    (issue : CycleIssue) : List (String × (Nat × List (String × Nat))) :=
  let assigneeName := jsOr (issue.assignee.map UserRef.name) "Unassigned"
  let storyPoints := issue.estimate.getD 0
  let status := issue.state.name
  let m1 := if (m.find? (fun kv => kv.1 == assigneeName)).isSome then m
    else m ++ [(assigneeName, (0, []))]
  m1.map (fun kv =>
    if kv.1 == assigneeName then
      (kv.1, (kv.2.1 + storyPoints, breakdownBump kv.2.2 status storyPoints))
    else kv)

/-- `calculateAssigneeStats`: per-assignee totals and status breakdown, the
percentage map (zero when the total is zero), sorted by descending total with a
stable sort (JS `Array.prototype.sort`). -/
def calculateAssigneeStats (issues : List CycleIssue) : List AssigneeStats :=
  let m := issues.foldl assigneeStatsStep []
  let stats := m.map (fun kv =>
    { name := kv.1
      totalStoryPoints := kv.2.1
      statusBreakdown := kv.2.2
      statusPercentages := kv.2.2.map (fun e =>
        (e.1, if 0 < kv.2.1 then ((e.2 : Rat) / (kv.2.1 : Rat)) * 100 else 0)) : AssigneeStats })
  stats.mergeSort (fun a b => b.totalStoryPoints ≤ a.totalStoryPoints)

/-- JS `x || y` on a possibly-missing number (`0` is falsy). -/
def jsOrNat (o : Option Nat) (d : Nat) : Nat :=
  if o.getD 0 ≠ 0 then o.getD 0 else d

/-- JS `x || y` on a possibly-missing rational (`0` is falsy). -/
def jsOrRat (o : Option Rat) (d : Rat) : Rat :=
  if o.getD 0 ≠ 0 then o.getD 0 else d

/-- Breakdown read returning the raw optional value. -/
def bdGet (b : List (String × Nat)) (st : String) : Option Nat :=
  (b.find? (fun kv => kv.1 == st)).map Prod.snd

/-- Percentage-map read returning the raw optional value. -/
def pctGet (b : List (String × Rat)) (st : String) : Option Rat :=
  (b.find? (fun kv => kv.1 == st)).map Prod.snd

/-- `split('T')[0]` of an ISO timestamp. -/
def datePart (iso : String) : String :=
  String.mk (iso.data.takeWhile (fun c => c != 'T'))

/-- Total story points of a cycle's issues. -/
def issuesTotalStoryPoints (issues : List CycleIssue) : Nat :=
  issues.foldl (fun sum i => sum + i.estimate.getD 0) 0

/-- Story points of issues whose state category is `completed`. -/
def completedStoryPoints (issues : List CycleIssue) : Nat :=
  (issues.filter (fun i => i.state.type == "completed")).foldl
    (fun sum i => sum + i.estimate.getD 0) 0

/-- Everything of `generateRetrospectiveContent` before the trailing
`Generated:` line: front matter (with the `completed_at` fallback to the
generation date), summary metrics, the two tables, the reopened-issues section,
the comments-summary section and the recommendations. -/
def retroMain (cycleName : String) (cycleData : CycleData) (issues : List CycleIssue)
    (assigneeStats : List AssigneeStats) (now : String) : String :=
  let total := issuesTotalStoryPoints issues
  let completed := completedStoryPoints issues
  let completionRate : Rat := if 0 < total then ((completed : Rat) / (total : Rat)) * 100 else 0
  let reopenedIssues := issues.filter (fun i => 0 < i.reopenedCount)
  let totalReopened := reopenedIssues.length
  let issuesTable := String.intercalate "\n" (issues.map (fun i =>
    "| " ++ jsOr (i.assignee.map UserRef.name) "Unassigned" ++ " | "
      ++ (if i.state.type == "completed" then "✅" else "❌") ++ " " ++ i.state.name
      ++ " | " ++ toString (i.estimate.getD 0) ++ " | [[" ++ i.identifier ++ "] "
      ++ i.title ++ "](" ++ i.url ++ ") |"))
  let statsTable := String.intercalate "\n" (assigneeStats.map (fun stats =>
    let todo := jsOrNat (bdGet stats.statusBreakdown "Todo") 0
    let inProgress := jsOrNat (bdGet stats.statusBreakdown "In Progress") 0
    let review := jsOrNat (bdGet stats.statusBreakdown "Review")
      (jsOrNat (bdGet stats.statusBreakdown "In Review") 0)
    let done := jsOrNat (bdGet stats.statusBreakdown "Done")
      (jsOrNat (bdGet stats.statusBreakdown "Completed") 0)
    let completionPct := jsOrRat (pctGet stats.statusPercentages "Done")
      (jsOrRat (pctGet stats.statusPercentages "Completed") 0)
    "| " ++ stats.name ++ " | " ++ toString todo ++ " | " ++ toString inProgress
      ++ " | " ++ toString review ++ " | " ++ toString done ++ " | "
      ++ toString stats.totalStoryPoints ++ " | " ++ ratToFixed1 completionPct ++ "% |"))
  let reopenedSection :=
    if totalReopened = 0 then "✅ **No issues were reopened during this cycle.**"
    else "⚠️ **" ++ toString totalReopened ++ " issues were reopened:**\n\n"
      ++ String.intercalate "\n" (reopenedIssues.map (fun i =>
          "- [" ++ i.identifier ++ "] " ++ i.title ++ " (reopened "
            ++ toString i.reopenedCount ++ " times)"))
      ++ "\n\n### Potential Reasons for Reopening:\n- Quality assurance issues\n- Incomplete requirements\n- Technical debt\n- Integration problems\n- Missing edge cases"
  let commentsSection :=
    if issues.length = 0 then "No issues to analyze."
    else "Based on " ++ toString issues.length ++ " issues analyzed:\n\n- **Recurring Themes:** TBD (requires comment analysis implementation)\n- **Technical Blockers:** TBD\n- **Process Issues:** TBD\n- **Communication Gaps:** TBD\n\n> Note: To enable advanced comment analysis, integrate with Claude API to process comments and identify:\n> - Common technical issues mentioned\n> - Recurring blockers or dependencies\n> - Communication patterns that led to delays\n> - Quality issues that caused reopenings\n\n**Comments Summary:**\n"
      ++ String.intercalate "\\n"
        (((issues.filter (fun i => 0 < i.comments.length)).map (fun i =>
          "- **" ++ i.identifier ++ "**: " ++ toString i.comments.length ++ " comments")).take 10)
  "__________\ncycle_id: " ++ cycleData.id ++ "\ncycle_name: " ++ cycleName
    ++ "\ncompleted_at: " ++ jsOr cycleData.completedAt (datePart now)
    ++ "\n__________\n\n# " ++ cycleName ++ " - Cycle Retrospective\n\n**Cycle Period:** "
    ++ jsOr cycleData.startsAt "N/A" ++ " - " ++ jsOr cycleData.endsAt "N/A"
    ++ "\n**Total Story Points:** " ++ toString total
    ++ "\n**Completed Story Points:** " ++ toString completed
    ++ "\n**Completion Rate:** " ++ ratToFixed1 completionRate
    ++ "%\n**Total Issues:** " ++ toString issues.length
    ++ "\n**Reopened Issues:** " ++ toString totalReopened
    ++ "\n\n## 📊 Issues by Person and Status\n\n| Person | Status | Story Points | Ticket |\n|--------|--------|-------------|--------|\n"
    ++ issuesTable
    ++ "\n\n## 📈 Story Points by Assignee\n\n| Person | Todo | In Progress | Review | Done | Total | Completion % |\n|--------|------|-------------|---------|------|-------|-------------|\n"
    ++ statsTable
    ++ "\n\n## 🔄 Reopened Issues Analysis\n\n" ++ reopenedSection
    ++ "\n\n## 💬 Common Issues from Comments\n\n_Analysis of issue comments to identify recurring problems:_\n\n"
    ++ commentsSection
    ++ "\n\n## 🎯 Recommendations\n\n1. **Quality Focus:** "
    ++ (if completionRate < 80 then "Consider implementing more thorough testing before marking issues as complete."
        else "Good completion rate - maintain current quality standards.")
    ++ "\n\n2. **Reopened Issues:** "
    ++ (if 0 < totalReopened then "Review the root causes of reopened issues and implement preventive measures."
        else "Excellent - no reopened issues this cycle.")
    ++ "\n\n3. **Story Point Distribution:** Review workload balance across team members for future cycles.\n\n4. **Process Improvements:** Based on comment analysis, focus on areas with the most communication or technical challenges.\n\n---\n\n"

/-- `generateRetrospectiveContent`: the main body followed by the trailing
generation-timestamp footer. -/
def generateRetrospectiveContent (cycleName : String) (cycleData : CycleData)
    (issues : List CycleIssue) (assigneeStats : List AssigneeStats) (now : String) : String :=
  retroMain cycleName cycleData issues assigneeStats now
    ++ "Generated: " ++ now ++ "\nCycle ID: " ++ cycleData.id ++ "\n"

/-- `cycleData.title || cycleData.name || 'Cycle-' + id` of
`generateCycleRetrospective`. -/
def cycleNameOf (cycleData : CycleData) : String :=
  jsOr cycleData.title (jsOr cycleData.name ("Cycle-" ++ cycleData.id))

/-- The retrospective content pipeline of `generateCycleRetrospective`: analyse
the issues' comments, compute the assignee stats, render the content. -/
def retroContentOf (cycleData : CycleData) (issues : List CycleIssue)
    (fetchComments : String → Except String (List RComment)) (now : String) : String :=
  let analyzed := analyzeIssuesAndComments issues fetchComments
  generateRetrospectiveContent (cycleNameOf cycleData) cycleData analyzed
    (calculateAssigneeStats analyzed) now

/-- The main part (everything but the trailing timestamp footer) of the
retrospective pipeline output. -/
def retroMainOf (cycleData : CycleData) (issues : List CycleIssue)
    (fetchComments : String → Except String (List RComment)) (now : String) : String :=
  let analyzed := analyzeIssuesAndComments issues fetchComments
  retroMain (cycleNameOf cycleData) cycleData analyzed
    (calculateAssigneeStats analyzed) now

/-! ## Claim theorems -/

/-- C1: for every release-sync invocation where a document whose title matches
the story label's name already exists in the document store and that document's
parsed `release_status` is anything other than `not_released`,
`processStatusReleaseChange` performs no update of the document's body (the
returned store is the input store, unchanged) and returns a `skipped` outcome. -/
theorem release_skip_locked_document
    (ctx : ReleaseChangeContext) (allTickets : List RTicket)
    (releaseDateString now newDocId : String) (store : List SliteDoc)
    (doc : SliteDoc) (s : String)
    (hdoc : getDocumentByTitle store ctx.labelName = some doc)
    (hs : parseReleaseStatus doc.content = some s)
    (hne : s ≠ "not_released") :
    processStatusReleaseChange ctx allTickets releaseDateString now newDocId store
      = (⟨true, some "skipped"⟩, store) := by
  unfold processStatusReleaseChange
  rw [hdoc]
  simp [hs, hne]

/-- C1 witness: a store holding a manually released document for the label is
left untouched and the processor reports `skipped`. -/
theorem release_skip_locked_document_witness :
    getDocumentByTitle
        [⟨"doc1", "Feature X",
          "__________\nrelease_status: released\nrelease_at: 2025-07-28\n__________\n"⟩]
        "Feature X"
      = some ⟨"doc1", "Feature X",
          "__________\nrelease_status: released\nrelease_at: 2025-07-28\n__________\n"⟩ ∧
    parseReleaseStatus
        "__________\nrelease_status: released\nrelease_at: 2025-07-28\n__________\n"
      = some "released" ∧
    processStatusReleaseChange ⟨"i1", "Ticket", "Feature X", "lbl1", none, none, "org"⟩ []
        "2025-10-18" "2025-10-11T00:00:00.000Z" "n1"
        [⟨"doc1", "Feature X",
          "__________\nrelease_status: released\nrelease_at: 2025-07-28\n__________\n"⟩]
      = (⟨true, some "skipped"⟩,
          [⟨"doc1", "Feature X",
            "__________\nrelease_status: released\nrelease_at: 2025-07-28\n__________\n"⟩]) :=
  ⟨by decide, by decide,
    release_skip_locked_document _ _ _ _ _ _
      ⟨"doc1", "Feature X",
        "__________\nrelease_status: released\nrelease_at: 2025-07-28\n__________\n"⟩
      "released" (by decide) (by decide) (by decide)⟩

/-- C4: with a configured sink, the Fireman-Validation flow issues its
notification POST if and only if at least one of the status, priority or title
diffs is marked changed, the current status name case-insensitively equals
`fireman validation`, and the current priority equals 1 (Urgent). -/
theorem fireman_validation_trigger_iff (u : String) (data : IssueData)
    (cd : IssueChangeDetection) :
    (processFiremanValidationFlow (some u) data cd).isSome = true ↔
      (((cd.status.map StatusDiff.changed).getD false = true ∨
        (cd.priority.map PriorityDiff.changed).getD false = true ∨
        (cd.title.map TitleDiff.changed).getD false = true) ∧
       data.state.map (fun s => toLowerStr s.name) = some "fireman validation" ∧
       data.priority = some 1) := by
  cases hst : (cd.status.map StatusDiff.changed).getD false <;>
  cases hpr : (cd.priority.map PriorityDiff.changed).getD false <;>
  cases hti : (cd.title.map TitleDiff.changed).getD false <;>
  cases hfv : (data.state.map (fun s => toLowerStr s.name) == some "fireman validation") <;>
  cases hur : (data.priority == some 1) <;>
    simp_all [processFiremanValidationFlow, sendFiremanValidationSlackNotification,
      beq_iff_eq, beq_eq_false_iff_ne]

/-- C4 witness: an urgent ticket updated inside Fireman Validation with a
priority change triggers the POST. -/
theorem fireman_validation_trigger_iff_witness :
    (processFiremanValidationFlow (some "https://hooks.example/fire")
        ⟨"i1", some "Hotfix", none, none, some ⟨"s1", "Fireman Validation", "started"⟩,
          none, none, none, none, some 1, some [], none, some "DEV-7"⟩
        ⟨true, none, none, none, some ⟨true, 1, some 2⟩, none, none, none, none, none,
          none⟩).isSome = true :=
  (fireman_validation_trigger_iff "https://hooks.example/fire"
      ⟨"i1", some "Hotfix", none, none, some ⟨"s1", "Fireman Validation", "started"⟩,
        none, none, none, none, some 1, some [], none, some "DEV-7"⟩
      ⟨true, none, none, none, some ⟨true, 1, some 2⟩, none, none, none, none, none,
        none⟩).mpr
    ⟨Or.inr (Or.inl (by decide)), by decide, by decide⟩

/-- C5: the cycle-milestone flow never reaches its notification sink when the
issue references no cycle (falsy cycle id), or the enriched cycle details are
unavailable, or the enriched cycle's `completedAt` is present (a non-empty
timestamp). -/
theorem cycle_status_completed_cycle_suppressed (url : Option String)
    (data : IssueData) (cd : IssueChangeDetection) :
    (truthyS (data.cycle.map CycleRef.id) = false →
      processCycleStatusFlow url data cd = none) ∧
    (cd.cycleDetails = none → processCycleStatusFlow url data cd = none) ∧
    (∀ det t, cd.cycleDetails = some det → det.completedAt = some t → t ≠ "" →
      processCycleStatusFlow url data cd = none) := by
  refine ⟨?_, ?_, ?_⟩
  · intro h
    unfold processCycleStatusFlow
    cases hr : cycleStatusReason data cd <;> simp [h]
  · intro h
    unfold processCycleStatusFlow
    cases hr : cycleStatusReason data cd <;>
      cases ht : truthyS (data.cycle.map CycleRef.id) <;> simp [h, ht]
  · intro det t hdet hc hne
    unfold processCycleStatusFlow
    cases hr : cycleStatusReason data cd <;>
      cases ht : truthyS (data.cycle.map CycleRef.id) <;>
      simp [hdet, ht, truthyS, hc, hne]

/-- C5 witness: a qualifying Done transition in the target team is suppressed
when the enriched cycle carries `completedAt = 2024-01-01`. -/
theorem cycle_status_completed_cycle_suppressed_witness :
    processCycleStatusFlow (some "https://hooks.example/cycle")
        ⟨"i1", some "T", none, none, some ⟨"s2", "Done", "completed"⟩, none,
          some ⟨"t1", "Engineering - PRODUCT"⟩, none, some ⟨"cy1", some "Sprint 1"⟩,
          none, some [], some "https://linear.app/i/DEV-1", some "DEV-1"⟩
        ⟨true, none, some ⟨true, ⟨"s2", "Done", "completed"⟩, some ⟨"s1", "Todo", "unstarted"⟩⟩,
          none, none, none, none, none, none, none,
          some ⟨"cy1", "Sprint 1", some "2024-01-01", none, none⟩⟩
      = none :=
  (cycle_status_completed_cycle_suppressed _ _ _).2.2
    ⟨"cy1", "Sprint 1", some "2024-01-01", none, none⟩ "2024-01-01" rfl rfl (by decide)

/-- When the prior-state lookup fails (throws or resolves null), the status
comparison produces no diff. -/
theorem statusDiffOf_none_of_lookup_failure
    (data : IssueData) (upd : UpdatedFrom) (lS : LookupState) (sid : String)
    (h1 : upd.stateId = some sid)
    (h6 : lS sid = .ok none ∨ ∃ e, lS sid = .error e) :
    statusDiffOf data upd lS = none := by
  unfold statusDiffOf
  rw [h1]
  cases hst : data.state with
  | none => rfl
  | some st =>
    by_cases hcond : sid ≠ "" ∧ st.id ≠ "" ∧ st.id ≠ sid
    · rcases h6 with h | ⟨e, h⟩ <;> simp [hcond, h]
    · simp [hcond]

/-- C7: for an update whose `priorDelta` state id differs from the current state
id, a failing Entity-Gateway resolution of the prior state (a thrown error or a
null result) yields no status diff and does not contribute to `hasChanges`; the
remaining field diffs are produced by their normal per-field comparisons, and
the label heuristic sees only those. -/
theorem status_lookup_failure_degrades_gracefully
    (data : IssueData) (upd : UpdatedFrom) (lS : LookupState) (lC : LookupCycle)
    (sid : String) (st : StateRef)
    (h1 : upd.stateId = some sid) (h2 : data.state = some st)
    (h3 : sid ≠ "") (h4 : st.id ≠ "") (h5 : st.id ≠ sid)
    (h6 : lS sid = .ok none ∨ ∃ e, lS sid = .error e) :
    (performSimplifiedComparison data upd lS lC).status = none ∧
    (performSimplifiedComparison data upd lS lC).priority = priorityDiffOf data upd ∧
    (performSimplifiedComparison data upd lS lC).assignee = assigneeDiffOf data upd ∧
    (performSimplifiedComparison data upd lS lC).cycle = cycleDiffOf data upd ∧
    (performSimplifiedComparison data upd lS lC).project = projectDiffOf data upd ∧
    (performSimplifiedComparison data upd lS lC).title = titleDiffOf data upd ∧
    (performSimplifiedComparison data upd lS lC).description = descriptionDiffOf data upd ∧
    (performSimplifiedComparison data upd lS lC).estimate = estimateDiffOf data upd ∧
    (performSimplifiedComparison data upd lS lC).labels =
      labelsDiffOf data ((priorityDiffOf data upd).isSome || (assigneeDiffOf data upd).isSome ||
        (cycleDiffOf data upd).isSome || (projectDiffOf data upd).isSome ||
        (titleDiffOf data upd).isSome || (descriptionDiffOf data upd).isSome ||
        (estimateDiffOf data upd).isSome) ∧
    (performSimplifiedComparison data upd lS lC).hasChanges =
      ((priorityDiffOf data upd).isSome || (assigneeDiffOf data upd).isSome ||
        (cycleDiffOf data upd).isSome || (projectDiffOf data upd).isSome ||
        (titleDiffOf data upd).isSome || (descriptionDiffOf data upd).isSome ||
        (estimateDiffOf data upd).isSome ||
        (labelsDiffOf data ((priorityDiffOf data upd).isSome || (assigneeDiffOf data upd).isSome ||
          (cycleDiffOf data upd).isSome || (projectDiffOf data upd).isSome ||
          (titleDiffOf data upd).isSome || (descriptionDiffOf data upd).isSome ||
          (estimateDiffOf data upd).isSome)).isSome) := by
  have hs := statusDiffOf_none_of_lookup_failure data upd lS sid h1 h6
  simp [performSimplifiedComparison, hs, Bool.or_assoc]

/-- C7 witness: a payload whose state ids differ but whose prior state resolves
null still reports the priority change, sets `hasChanges`, and carries no
status diff. -/
theorem status_lookup_failure_degrades_gracefully_witness :
    (performSimplifiedComparison
        ⟨"i1", none, none, none, some ⟨"s2", "Done", "completed"⟩, none, none, none,
          none, some 2, some [], none, none⟩
        ⟨some "s1", some 1, none, none, none, none, none, none⟩
        (fun _ => .ok none) (fun _ => .ok none)).status = none ∧
    (performSimplifiedComparison
        ⟨"i1", none, none, none, some ⟨"s2", "Done", "completed"⟩, none, none, none,
          none, some 2, some [], none, none⟩
        ⟨some "s1", some 1, none, none, none, none, none, none⟩
        (fun _ => .ok none) (fun _ => .ok none)).priority =
      priorityDiffOf
        ⟨"i1", none, none, none, some ⟨"s2", "Done", "completed"⟩, none, none, none,
          none, some 2, some [], none, none⟩
        ⟨some "s1", some 1, none, none, none, none, none, none⟩ := by
  have h := status_lookup_failure_degrades_gracefully
    ⟨"i1", none, none, none, some ⟨"s2", "Done", "completed"⟩, none, none, none,
      none, some 2, some [], none, none⟩
    ⟨some "s1", some 1, none, none, none, none, none, none⟩
    (fun _ => .ok none) (fun _ => .ok none)
    "s1" ⟨"s2", "Done", "completed"⟩ rfl rfl (by decide) (by decide) (by decide)
    (Or.inl rfl)
  exact ⟨h.1, h.2.1⟩

/-- C10: when an assignee, cycle or project change is reported with a non-empty
prior id, the diff's previous value is exactly the raw id paired with the
literal placeholder name `Unknown`; these three diffs are computed without any
Entity-Gateway lookup (they are identical under arbitrary replacement of both
lookup functions) — only the previous status is resolved to a real name. -/
theorem previous_refs_unresolved_unknown_placeholder
    (data : IssueData) (upd : UpdatedFrom) (lS lS' : LookupState) (lC lC' : LookupCycle) :
    (∀ ad aid, (performSimplifiedComparison data upd lS lC).assignee = some ad →
      upd.assigneeId = some aid → aid ≠ "" →
      ad.previous = some ⟨aid, "Unknown", none⟩) ∧
    (∀ cdf cid, (performSimplifiedComparison data upd lS lC).cycle = some cdf →
      upd.cycleId = some cid → cid ≠ "" →
      cdf.previous = some ⟨cid, some "Unknown"⟩) ∧
    (∀ pdf pid, (performSimplifiedComparison data upd lS lC).project = some pdf →
      upd.projectId = some pid → pid ≠ "" →
      pdf.previous = some ⟨pid, some "Unknown"⟩) ∧
    (performSimplifiedComparison data upd lS lC).assignee =
      (performSimplifiedComparison data upd lS' lC').assignee ∧
    (performSimplifiedComparison data upd lS lC).cycle =
      (performSimplifiedComparison data upd lS' lC').cycle ∧
    (performSimplifiedComparison data upd lS lC).project =
      (performSimplifiedComparison data upd lS' lC').project := by
  refine ⟨?_, ?_, ?_, by simp [performSimplifiedComparison],
    by simp [performSimplifiedComparison], by simp [performSimplifiedComparison]⟩
  · intro ad aid had haid hne
    have h : assigneeDiffOf data upd = some ad := by
      simpa [performSimplifiedComparison] using had
    simp only [assigneeDiffOf, haid] at h
    split at h
    case isTrue =>
      injection h with h'
      rw [← h']
    case isFalse => exact absurd h (by simp)
  · intro cdf cid hcd hcid hne
    have h : cycleDiffOf data upd = some cdf := by
      simpa [performSimplifiedComparison] using hcd
    simp only [cycleDiffOf, hcid] at h
    split at h
    case isTrue =>
      injection h with h'
      rw [← h']
    case isFalse => exact absurd h (by simp)
  · intro pdf pid hpd hpid hne
    have h : projectDiffOf data upd = some pdf := by
      simpa [performSimplifiedComparison] using hpd
    simp only [projectDiffOf, hpid] at h
    split at h
    case isTrue =>
      injection h with h'
      rw [← h']
    case isFalse => exact absurd h (by simp)

/-- C10 witness: an assignee change from prior id `u1` reports the placeholder
previous user `⟨u1, Unknown⟩`. -/
theorem previous_refs_unresolved_unknown_placeholder_witness :
    ((performSimplifiedComparison
        ⟨"i1", none, none, none, none, some ⟨"u2", "Bob", none⟩, none, none, none,
          none, some [], none, none⟩
        ⟨none, none, some "u1", none, none, none, none, none⟩
        (fun _ => .ok none) (fun _ => .ok none)).assignee.map AssigneeDiff.previous)
      = some (some ⟨"u1", "Unknown", none⟩) := by
  have h := (previous_refs_unresolved_unknown_placeholder
    ⟨"i1", none, none, none, none, some ⟨"u2", "Bob", none⟩, none, none, none,
      none, some [], none, none⟩
    ⟨none, none, some "u1", none, none, none, none, none⟩
    (fun _ => .ok none) (fun _ => .ok none)
    (fun _ => .ok none) (fun _ => .ok none)).1
    ⟨true, some ⟨"u2", "Bob", none⟩, some ⟨"u1", "Unknown", none⟩⟩ "u1"
    (by decide) rfl (by decide)
  rw [show (performSimplifiedComparison
      ⟨"i1", none, none, none, none, some ⟨"u2", "Bob", none⟩, none, none, none,
        none, some [], none, none⟩
      ⟨none, none, some "u1", none, none, none, none, none⟩
      (fun _ => .ok none) (fun _ => .ok none)).assignee
    = some ⟨true, some ⟨"u2", "Bob", none⟩, some ⟨"u1", "Unknown", none⟩⟩ from by decide]
  exact congrArg some h

/-- The flow-isolation property the specification claims for the issue-webhook
fan-out: one flow's thrown exception or rejected promise is caught at that
flow's boundary, so the other flows' effects still complete and the
webhook-level result stays successful (the failure is not left to fail the
batch). -/
def flowFailureContained : Prop :=
  ∀ (effs : List String) (e : String) (r₂ r₃ : FlowRun),
    r₂.result = .ok () → r₃.result = .ok () →
    (runIssueFlows [⟨effs, .error e⟩, r₂, r₃]).effects = effs ++ (r₂.effects ++ r₃.effects) ∧
    (runIssueFlows [⟨effs, .error e⟩, r₂, r₃]).success = true

/-- C2 counterexample: with exactly one flow rejecting, the fail-fast
`Promise.all` join propagates the rejection to the processor-level `catch` and
the webhook result is marked failed — the failure is not caught at the flow
boundary, refuting the claim. -/
theorem flow_isolation_claim_false : ¬ flowFailureContained := by
  intro h
  have h1 := (h ["fireman-post"] "boom" ⟨["cycle-post"], .ok ()⟩
    ⟨["release-write"], .ok ()⟩ rfl rfl).2
  have h2 : (runIssueFlows [⟨["fireman-post"], .error "boom"⟩,
      ⟨["cycle-post"], .ok ()⟩, ⟨["release-write"], .ok ()⟩]).success = false := rfl
  rw [h2] at h1
  exact Bool.false_ne_true h1

/-- The `Promise.all` settlement fold resolves exactly when the accumulator and
every run resolved. -/
theorem foldl_joinStep_ok_iff (runs : List FlowRun) (acc : Except String Unit) :
    runs.foldl joinStep acc = .ok () ↔ (acc = .ok () ∧ ∀ r ∈ runs, r.result = .ok ()) := by
  induction runs generalizing acc with
  | nil => simp
  | cons r rest ih =>
    simp only [List.foldl_cons, ih, List.forall_mem_cons]
    cases acc with
    | error e => simp [joinStep]
    | ok u => cases u; simp [joinStep, and_assoc]

/-- C2 amended: a rejected flow does not cancel the other started flows — every
flow's effects execute regardless of failures — but the failure is caught only
at the webhook-processor boundary: the fan-out reports success exactly when all
three flows resolved, so any single rejection marks the whole issue-webhook
processing failed. -/
theorem promise_all_fanout_amended (runs : List FlowRun) :
    (runIssueFlows runs).effects = (runs.map FlowRun.effects).flatten ∧
    ((runIssueFlows runs).success = true ↔ ∀ r ∈ runs, r.result = .ok ()) := by
  constructor
  · unfold runIssueFlows promiseAllJoin
    cases hres : runs.foldl joinStep (.ok ()) <;> simp
  · unfold runIssueFlows promiseAllJoin
    cases hres : runs.foldl joinStep (.ok ()) with
    | error e =>
      have hnall : ¬ ∀ r ∈ runs, r.result = .ok () := by
        intro hall
        have hok : runs.foldl joinStep (.ok ()) = .ok () :=
          (foldl_joinStep_ok_iff runs (.ok ())).mpr ⟨rfl, hall⟩
        rw [hres] at hok
        exact Except.noConfusion hok
      simp [hnall]
    | ok u =>
      cases u
      have hall := ((foldl_joinStep_ok_iff runs (.ok ())).mp hres).2
      simp only [runIssueFlows]
      exact iff_of_true (by simp) hall

/-- C2 amended witness: a two-run fan-out with one rejection still executes both
effect lists and reports a failed batch. -/
theorem promise_all_fanout_amended_witness :
    (runIssueFlows [⟨["fireman-post"], .error "sink down"⟩,
      ⟨["release-write"], .ok ()⟩]).effects = ["fireman-post", "release-write"] ∧
    (runIssueFlows [⟨["fireman-post"], .error "sink down"⟩,
      ⟨["release-write"], .ok ()⟩]).success = false := by
  have h := promise_all_fanout_amended
    [⟨["fireman-post"], .error "sink down"⟩, ⟨["release-write"], .ok ()⟩]
  refine ⟨by simpa using h.1, ?_⟩
  have hnall : ¬ ∀ r ∈ [(⟨["fireman-post"], .error "sink down"⟩ : FlowRun),
      ⟨["release-write"], .ok ()⟩], r.result = .ok () := by
    intro hall
    have := hall ⟨["fireman-post"], .error "sink down"⟩ (by simp)
    exact Except.noConfusion this
  cases hs : (runIssueFlows [⟨["fireman-post"], .error "sink down"⟩,
      ⟨["release-write"], .ok ()⟩]).success with
  | false => rfl
  | true => exact absurd (h.2.mp hs) hnall

/-- A create-action webhook for an Engineering - PRODUCT issue born directly in
`Done`, carrying an active cycle and no labels. -/
def createDonePayload : LinearWebhookPayload :=
  { action := "create"
    data :=
      { id := "i1", title := some "Ship feature", description := none,
        estimate := some 3, state := some ⟨"s9", "Done", "completed"⟩,
        assignee := none, team := some ⟨"t1", "Engineering - PRODUCT"⟩,
        project := none, cycle := some ⟨"cy1", some "Sprint 1"⟩, priority := some 3,
        labels := some [], url := some "https://linear.app/c/issue/DEV-1",
        identifier := some "DEV-1" }
    updatedFrom := none
    organizationId := "org" }

/-- A gateway whose cycle `cy1` is active (no `completedAt`). -/
def activeCycleLookup : LookupCycle := fun cid =>
  if cid == "cy1" then .ok (some ⟨"cy1", "Sprint 1", none, some "2025-09-01", some "2025-09-14"⟩)
  else .ok none

/-- A state gateway that resolves nothing. -/
def nullStateLookup : LookupState := fun _ => .ok none

/-- The change detection the pipeline computes for `createDonePayload`. -/
def createDoneDetection : IssueChangeDetection :=
  detectChanges createDonePayload nullStateLookup activeCycleLookup

/-- The property the specification claims of the cycle-milestone flow: outside
the flagged-label case, a notification requires the status diff to be marked
changed, the current status to equal a target name case-insensitively, and a
recorded previous status name that differs from that target. -/
def cycleStatusNeedsRecordedPrevious : Prop :=
  ∀ (url : Option String) (data : IssueData) (cd : IssueChangeDetection),
    ¬(((data.labels.getD []).map Label.name).contains flaggedLabel = true ∧
      (cd.labels.map LabelsDiff.changed).getD false = true) →
    (processCycleStatusFlow url data cd).isSome = true →
    ((cd.status.map StatusDiff.changed).getD false = true ∧
     (data.state.map (fun s => toLowerStr s.name) = some "qa testing" ∨
      data.state.map (fun s => toLowerStr s.name) = some "done") ∧
     ∃ p, cd.status.bind StatusDiff.previous = some p ∧
       some (toLowerStr p.name) ≠ data.state.map (fun s => toLowerStr s.name))

/-- C3 counterexample: an issue created directly in `Done` flows through the
real change detector (create diffs carry no previous state) and the
cycle-milestone flow sends a status notification although no previous status
name is recorded — refuting the claim that an absent previous suppresses the
status case. -/
theorem cycle_status_create_without_previous_notifies :
    ¬ cycleStatusNeedsRecordedPrevious := by
  intro h
  have h2 := h (some "https://hooks.example/cycle") createDonePayload.data
    createDoneDetection (by decide) (by decide)
  obtain ⟨-, -, p, hp, -⟩ := h2
  have hnone : createDoneDetection.status.bind StatusDiff.previous = none := by decide
  rw [hnone] at hp
  exact Option.noConfusion hp

set_option maxHeartbeats 1600000 in
/-- The decision part of the cycle-milestone flow, characterised outside the
flagged-label case: a reason is produced exactly for a status change into a
target state whose recorded previous name — when present — differs from the
target; an absent previous name satisfies the comparison vacuously. -/
theorem cycleStatusReason_isSome_iff (data : IssueData) (cd : IssueChangeDetection)
    (hnf : ¬(((data.labels.getD []).map Label.name).contains flaggedLabel = true ∧
      (cd.labels.map LabelsDiff.changed).getD false = true)) :
    (cycleStatusReason data cd).isSome = true ↔
      (data.team.map TeamRef.name = some "Engineering - PRODUCT" ∧
       (cd.status.map StatusDiff.changed).getD false = true ∧
       ((data.state.map (fun s => toLowerStr s.name) = some "qa testing" ∧
         (cd.status.bind StatusDiff.previous).map (fun s => toLowerStr s.name)
           ≠ some "qa testing") ∨
        (data.state.map (fun s => toLowerStr s.name) = some "done" ∧
         (cd.status.bind StatusDiff.previous).map (fun s => toLowerStr s.name)
           ≠ some "done"))) := by
  unfold cycleStatusReason
  dsimp only
  cases hteam : (data.team.map TeamRef.name == some "Engineering - PRODUCT") with
  | false =>
    rw [beq_eq_false_iff_ne] at hteam
    simp [hteam]
  | true =>
    rw [beq_iff_eq] at hteam
    cases hl : (cd.labels.map LabelsDiff.changed).getD false with
    | true =>
      cases hflag : ((data.labels.getD []).map Label.name).contains flaggedLabel with
      | true => exact absurd ⟨hflag, hl⟩ hnf
      | false =>
        clear hnf
        cases hst : (cd.status.map StatusDiff.changed).getD false <;>
        cases hqa : (data.state.map (fun s => toLowerStr s.name) == some "qa testing") <;>
        cases hdn : (data.state.map (fun s => toLowerStr s.name) == some "done") <;>
        cases hpq : ((cd.status.bind StatusDiff.previous).map (fun s => toLowerStr s.name)
          == some "qa testing") <;>
        cases hpd : ((cd.status.bind StatusDiff.previous).map (fun s => toLowerStr s.name)
          == some "done") <;>
          simp_all [beq_iff_eq, beq_eq_false_iff_ne]
    | false =>
      clear hnf
      cases hflag : ((data.labels.getD []).map Label.name).contains flaggedLabel <;>
      cases hst : (cd.status.map StatusDiff.changed).getD false <;>
      cases hqa : (data.state.map (fun s => toLowerStr s.name) == some "qa testing") <;>
      cases hdn : (data.state.map (fun s => toLowerStr s.name) == some "done") <;>
      cases hpq : ((cd.status.bind StatusDiff.previous).map (fun s => toLowerStr s.name)
        == some "qa testing") <;>
      cases hpd : ((cd.status.bind StatusDiff.previous).map (fun s => toLowerStr s.name)
        == some "done") <;>
        simp_all [beq_iff_eq, beq_eq_false_iff_ne]

/-- C3 amended: outside the flagged-label case, the cycle-milestone flow issues
its notification exactly when the sink is configured, the issue is in the
target team, the status diff is marked changed, the current status
case-insensitively equals `QA Testing` or `Done` while the recorded previous
status name — if any — differs from it (an absent previous name, as on create
events, also triggers), the issue references a cycle, and the enriched cycle is
active. -/
theorem cycle_status_notification_amended (url : Option String) (data : IssueData)
    (cd : IssueChangeDetection)
    (hnf : ¬(((data.labels.getD []).map Label.name).contains flaggedLabel = true ∧
      (cd.labels.map LabelsDiff.changed).getD false = true)) :
    (processCycleStatusFlow url data cd).isSome = true ↔
      (url.isSome = true ∧
       truthyS (data.cycle.map CycleRef.id) = true ∧
       (∃ det, cd.cycleDetails = some det ∧ truthyS det.completedAt = false) ∧
       (data.team.map TeamRef.name = some "Engineering - PRODUCT" ∧
        (cd.status.map StatusDiff.changed).getD false = true ∧
        ((data.state.map (fun s => toLowerStr s.name) = some "qa testing" ∧
          (cd.status.bind StatusDiff.previous).map (fun s => toLowerStr s.name)
            ≠ some "qa testing") ∨
         (data.state.map (fun s => toLowerStr s.name) = some "done" ∧
          (cd.status.bind StatusDiff.previous).map (fun s => toLowerStr s.name)
            ≠ some "done")))) := by
  have hiff := cycleStatusReason_isSome_iff data cd hnf
  unfold processCycleStatusFlow
  cases hr : cycleStatusReason data cd with
  | none =>
    rw [hr] at hiff
    simp only [Option.isSome_none, Bool.false_eq_true, false_iff] at hiff
    refine iff_of_false (by simp) ?_
    rintro ⟨-, -, -, hrest⟩
    exact hiff hrest
  | some r =>
    rw [hr] at hiff
    simp only [Option.isSome_some, true_iff] at hiff
    cases hcy : truthyS (data.cycle.map CycleRef.id) with
    | false => simp [hcy]
    | true =>
      cases hdet : cd.cycleDetails with
      | none => simp [hdet]
      | some det =>
        cases hca : truthyS det.completedAt with
        | true => simp [hdet, hca]
        | false =>
          cases url with
          | none => simp [sendCycleStatusSlackNotification, hdet, hca]
          | some u =>
            refine iff_of_true ?_ ⟨rfl, rfl, ⟨det, rfl, hca⟩, hiff⟩
            cases hflg : (r == flaggedLabel) <;>
              simp [sendCycleStatusSlackNotification, hflg, hca]

/-- C3 amended witness: a genuine Todo → Done transition in the target team
with an active cycle and configured sink produces the notification. -/
theorem cycle_status_notification_amended_witness :
    (processCycleStatusFlow (some "https://hooks.example/cycle")
        ⟨"i2", some "Polish", none, none, some ⟨"s9", "Done", "completed"⟩, none,
          some ⟨"t1", "Engineering - PRODUCT"⟩, none, some ⟨"cy1", some "Sprint 1"⟩,
          none, some [], none, some "DEV-2"⟩
        ⟨true, none, some ⟨true, ⟨"s9", "Done", "completed"⟩, some ⟨"s1", "Todo", "unstarted"⟩⟩,
          none, none, none, none, none, none, none,
          some ⟨"cy1", "Sprint 1", none, none, none⟩⟩).isSome = true :=
  (cycle_status_notification_amended (some "https://hooks.example/cycle")
      ⟨"i2", some "Polish", none, none, some ⟨"s9", "Done", "completed"⟩, none,
        some ⟨"t1", "Engineering - PRODUCT"⟩, none, some ⟨"cy1", some "Sprint 1"⟩,
        none, some [], none, some "DEV-2"⟩
      ⟨true, none, some ⟨true, ⟨"s9", "Done", "completed"⟩, some ⟨"s1", "Todo", "unstarted"⟩⟩,
        none, none, none, none, none, none, none,
        some ⟨"cy1", "Sprint 1", none, none, none⟩⟩
      (by decide)).mpr
    ⟨rfl, by decide, ⟨⟨"cy1", "Sprint 1", none, none, none⟩, rfl, rfl⟩,
      by decide, by decide, Or.inr ⟨by decide, by decide⟩⟩

/-- The invariant the specification claims of the change detector: a field diff
marked changed never carries current and previous values that are equal after
resolution (for id-bearing fields, equal reported ids). -/
def changedImpliesDifferent : Prop :=
  ∀ (data : IssueData) (upd : UpdatedFrom) (lS : LookupState) (lC : LookupCycle),
    (∀ pd, (performSimplifiedComparison data upd lS lC).priority = some pd →
      pd.previous ≠ some pd.current) ∧
    (∀ td, (performSimplifiedComparison data upd lS lC).title = some td →
      td.previous ≠ some td.current) ∧
    (∀ dd, (performSimplifiedComparison data upd lS lC).description = some dd →
      dd.previous ≠ dd.current) ∧
    (∀ ed, (performSimplifiedComparison data upd lS lC).estimate = some ed →
      ed.previous ≠ ed.current) ∧
    (∀ sd, (performSimplifiedComparison data upd lS lC).status = some sd →
      sd.previous.map StateRef.id ≠ some sd.current.id) ∧
    (∀ ad, (performSimplifiedComparison data upd lS lC).assignee = some ad →
      ad.previous.map UserRef.id ≠ ad.current.map UserRef.id) ∧
    (∀ cdf, (performSimplifiedComparison data upd lS lC).cycle = some cdf →
      cdf.previous.map CycleRef.id ≠ cdf.current.map CycleRef.id) ∧
    (∀ pdf, (performSimplifiedComparison data upd lS lC).project = some pdf →
      pdf.previous.map ProjectRef.id ≠ pdf.current.map ProjectRef.id) ∧
    (∀ ld, (performSimplifiedComparison data upd lS lC).labels = some ld →
      ld.current ≠ ld.previous)

/-- C6 counterexample: a payload whose current priority is absent while the
prior priority is 0 passes the raw `!==` guard, so the detector reports a
priority diff with `changed = true` whose defaulted current value 0 equals the
previous value 0 — the values are equal after resolution, refuting the
invariant. -/
theorem change_detector_priority_default_collision : ¬ changedImpliesDifferent := by
  intro h
  have hpd := (h ⟨"i1", none, none, none, none, none, none, none, none, none, none,
      none, none⟩
    ⟨none, some 0, none, none, none, none, none, none⟩
    (fun _ => .ok none) (fun _ => .ok none)).1 ⟨true, 0, some 0⟩ (by decide)
  exact hpd rfl

/-- C6 amended: a diff marked changed always reflects a raw difference between
the webhook's current value and the prior value (with an absent current value
counted as different from any present prior value); after the detector's
JS-default conversions (`|| 0` for priority, `|| ''` for title) the reported
current value can coincide with the reported previous value, as in the
counterexample. The reported previous of the id-bearing fields is derived from
the raw prior id only. -/
theorem change_detector_raw_change_invariant
    (data : IssueData) (upd : UpdatedFrom) (lS : LookupState) (lC : LookupCycle) :
    (∀ sd, (performSimplifiedComparison data upd lS lC).status = some sd →
      ∃ sid, upd.stateId = some sid ∧ sd.current.id ≠ sid ∧ data.state = some sd.current) ∧
    (∀ pd, (performSimplifiedComparison data upd lS lC).priority = some pd →
      pd.previous = upd.priority ∧ data.priority ≠ upd.priority) ∧
    (∀ ad, (performSimplifiedComparison data upd lS lC).assignee = some ad →
      ∃ aid, upd.assigneeId = some aid ∧ data.assignee.map UserRef.id ≠ some aid ∧
        ad.current = data.assignee) ∧
    (∀ cdf, (performSimplifiedComparison data upd lS lC).cycle = some cdf →
      ∃ cid, upd.cycleId = some cid ∧ data.cycle.map CycleRef.id ≠ some cid ∧
        cdf.current = data.cycle) ∧
    (∀ pdf, (performSimplifiedComparison data upd lS lC).project = some pdf →
      ∃ pid, upd.projectId = some pid ∧ data.project.map ProjectRef.id ≠ some pid ∧
        pdf.current = data.project) ∧
    (∀ td, (performSimplifiedComparison data upd lS lC).title = some td →
      td.previous = upd.title ∧ data.title ≠ upd.title) ∧
    (∀ dd, (performSimplifiedComparison data upd lS lC).description = some dd →
      dd.previous = upd.description ∧ data.description ≠ upd.description ∧
        dd.current = data.description) ∧
    (∀ ed, (performSimplifiedComparison data upd lS lC).estimate = some ed →
      ed.previous = upd.estimate ∧ data.estimate ≠ upd.estimate ∧
        ed.current = data.estimate) ∧
    (∀ ld, (performSimplifiedComparison data upd lS lC).labels = some ld →
      ld.previous = [] ∧ ld.current ≠ []) := by
  refine ⟨?_, ?_, ?_, ?_, ?_, ?_, ?_, ?_, ?_⟩
  · intro sd hsd
    have h : statusDiffOf data upd lS = some sd := by
      simpa [performSimplifiedComparison] using hsd
    unfold statusDiffOf at h
    cases hsid : upd.stateId with
    | none => simp [hsid] at h
    | some sid =>
      cases hst2 : data.state with
      | none => simp [hsid, hst2] at h
      | some st =>
        simp only [hsid, hst2] at h
        split at h
        case isTrue hcond =>
          cases hls : lS sid with
          | error e => simp [hls] at h
          | ok v =>
            cases v with
            | none => simp [hls] at h
            | some prev =>
              simp only [hls] at h
              injection h with h'
              refine ⟨sid, rfl, ?_, ?_⟩
              · rw [← h']
                exact hcond.2.2
              · rw [← h']
        case isFalse => exact absurd h (by simp)
  · intro pd hpd
    have h : priorityDiffOf data upd = some pd := by
      simpa [performSimplifiedComparison] using hpd
    cases hp : upd.priority with
    | none => simp [priorityDiffOf, hp] at h
    | some p =>
      simp only [priorityDiffOf, hp] at h
      split at h
      case isTrue hcond =>
        injection h with h'
        rw [← h']
        exact ⟨rfl, hcond⟩
      case isFalse => exact absurd h (by simp)
  · intro ad had
    have h : assigneeDiffOf data upd = some ad := by
      simpa [performSimplifiedComparison] using had
    cases ha : upd.assigneeId with
    | none => simp [assigneeDiffOf, ha] at h
    | some aid =>
      simp only [assigneeDiffOf, ha] at h
      split at h
      case isTrue hcond =>
        injection h with h'
        rw [← h']
        exact ⟨aid, rfl, hcond, rfl⟩
      case isFalse => exact absurd h (by simp)
  · intro cdf hcd
    have h : cycleDiffOf data upd = some cdf := by
      simpa [performSimplifiedComparison] using hcd
    cases hc : upd.cycleId with
    | none => simp [cycleDiffOf, hc] at h
    | some cid =>
      simp only [cycleDiffOf, hc] at h
      split at h
      case isTrue hcond =>
        injection h with h'
        rw [← h']
        exact ⟨cid, rfl, hcond, rfl⟩
      case isFalse => exact absurd h (by simp)
  · intro pdf hpd
    have h : projectDiffOf data upd = some pdf := by
      simpa [performSimplifiedComparison] using hpd
    cases hp : upd.projectId with
    | none => simp [projectDiffOf, hp] at h
    | some pid =>
      simp only [projectDiffOf, hp] at h
      split at h
      case isTrue hcond =>
        injection h with h'
        rw [← h']
        exact ⟨pid, rfl, hcond, rfl⟩
      case isFalse => exact absurd h (by simp)
  · intro td htd
    have h : titleDiffOf data upd = some td := by
      simpa [performSimplifiedComparison] using htd
    cases ht : upd.title with
    | none => simp [titleDiffOf, ht] at h
    | some t =>
      simp only [titleDiffOf, ht] at h
      split at h
      case isTrue hcond =>
        injection h with h'
        rw [← h']
        exact ⟨rfl, hcond⟩
      case isFalse => exact absurd h (by simp)
  · intro dd hdd
    have h : descriptionDiffOf data upd = some dd := by
      simpa [performSimplifiedComparison] using hdd
    cases hd : upd.description with
    | none => simp [descriptionDiffOf, hd] at h
    | some d =>
      simp only [descriptionDiffOf, hd] at h
      split at h
      case isTrue hcond =>
        injection h with h'
        rw [← h']
        exact ⟨rfl, hcond, rfl⟩
      case isFalse => exact absurd h (by simp)
  · intro ed hed
    have h : estimateDiffOf data upd = some ed := by
      simpa [performSimplifiedComparison] using hed
    cases he : upd.estimate with
    | none => simp [estimateDiffOf, he] at h
    | some e =>
      simp only [estimateDiffOf, he] at h
      split at h
      case isTrue hcond =>
        injection h with h'
        rw [← h']
        exact ⟨rfl, hcond, rfl⟩
      case isFalse => exact absurd h (by simp)
  · intro ld hld
    have h : labelsDiffOf data ((statusDiffOf data upd lS).isSome ||
        (priorityDiffOf data upd).isSome || (assigneeDiffOf data upd).isSome ||
        (cycleDiffOf data upd).isSome || (projectDiffOf data upd).isSome ||
        (titleDiffOf data upd).isSome || (descriptionDiffOf data upd).isSome ||
        (estimateDiffOf data upd).isSome) = some ld := by
      simpa [performSimplifiedComparison] using hld
    unfold labelsDiffOf at h
    dsimp only at h
    split at h
    case isTrue hcond =>
      injection h with h'
      refine ⟨by rw [← h'], ?_⟩
      rcases hcond with hf | ⟨hne, -⟩
      · intro he
        rw [← h'] at he
        simp only at he
        rw [he] at hf
        simp at hf
      · rw [← h']
        exact hne
    case isFalse => exact absurd h (by simp)

/-- C6 amended witness: a payload with raw priority, title and estimate
differences has the raw inequalities certified by the invariant. -/
theorem change_detector_raw_change_invariant_witness :
    (⟨"i1", some "New title", none, some 3, none, none, none, none, none, some 2,
        some [], none, none⟩ : IssueData).priority ≠
      (⟨none, some 1, none, none, none, some "Old", none, some 5⟩ : UpdatedFrom).priority ∧
    (⟨"i1", some "New title", none, some 3, none, none, none, none, none, some 2,
        some [], none, none⟩ : IssueData).title ≠
      (⟨none, some 1, none, none, none, some "Old", none, some 5⟩ : UpdatedFrom).title ∧
    (⟨"i1", some "New title", none, some 3, none, none, none, none, none, some 2,
        some [], none, none⟩ : IssueData).estimate ≠
      (⟨none, some 1, none, none, none, some "Old", none, some 5⟩ : UpdatedFrom).estimate := by
  have h := change_detector_raw_change_invariant
    ⟨"i1", some "New title", none, some 3, none, none, none, none, none, some 2,
      some [], none, none⟩
    ⟨none, some 1, none, none, none, some "Old", none, some 5⟩
    (fun _ => .ok none) (fun _ => .ok none)
  exact ⟨(h.2.1 ⟨true, 2, some 1⟩ (by decide)).2,
    (h.2.2.2.2.2.1 ⟨true, "New title", some "Old"⟩ (by decide)).2,
    (h.2.2.2.2.2.2.2.1 ⟨true, some 3, some 5⟩ (by decide)).2.1⟩

/-- Bucket read through the assignee-stats table (0 when the assignee or the
state column is absent). -/
def lookupBucket (table : List (String × List (String × Nat))) (nm st : String) : Nat :=
  ((table.find? (fun kv => kv.1 == nm)).map (fun kv => bucketVal kv.2 st)).getD 0

/-- The Done-completion percentage of one assignee's buckets. -/
def donePercentage (b : List (String × Nat)) : Rat :=
  ((bucketVal b "Done" : Rat) / (assigneeTotal b : Rat)) * 100

/-- A left fold accumulating `+ f t` computes the sum of the mapped list. -/
theorem foldl_add_eq_sum {α : Type} (f : α → Nat) (l : List α) (a : Nat) :
    l.foldl (fun s t => s + f t) a = a + (l.map f).sum := by
  induction l generalizing a with
  | nil => simp
  | cons x xs ih => simp [ih, Nat.add_assoc]

/-- `bumpBucket` preserves the column keys. -/
theorem bumpBucket_keys (b : List (String × Nat)) (st : String) (p : Nat) :
    (bumpBucket b st p).map Prod.fst = b.map Prod.fst := by
  induction b with
  | nil => rfl
  | cons x xs ih =>
    simp only [bumpBucket, List.map_cons] at ih ⊢
    split <;> simp_all

/-- Every row of the assignee-stats table carries exactly the tracked columns. -/
theorem statsTable_keys (tickets : List RTicket)
    (acc : List (String × List (String × Nat)) × List (String × Nat))
    (hacc : ∀ kv ∈ acc.1, kv.2.map Prod.fst = tsStates) :
    ∀ kv ∈ (tickets.foldl statsStep acc).1, kv.2.map Prod.fst = tsStates := by
  induction tickets generalizing acc with
  | nil => exact hacc
  | cons t ts ih =>
    refine ih (statsStep acc t) ?_
    intro kv hkv
    have htab : ∀ kv' ∈ (if (acc.1.find? (fun kv' => kv'.1 ==
        jsOr (t.assignee.map UserRef.name) "Unassigned")).isSome then acc.1
        else acc.1 ++ [(jsOr (t.assignee.map UserRef.name) "Unassigned", zeroBuckets)]),
        kv'.2.map Prod.fst = tsStates := by
      split
      · exact hacc
      · intro kv' hkv'
        rcases List.mem_append.mp hkv' with hold | hnew
        · exact hacc kv' hold
        · rcases List.mem_singleton.mp hnew with rfl
          show List.map Prod.fst zeroBuckets = tsStates
          decide
    unfold statsStep at hkv
    dsimp only at hkv
    split at hkv
    · rcases List.mem_map.mp hkv with ⟨kv', hkv', rfl⟩
      split
      · rw [bumpBucket_keys]
        exact htab kv' hkv'
      · exact htab kv' hkv'
    · exact htab kv hkv

/-- `filterMap` with an omit-on-zero body is the map over the filtered rows. -/
theorem percentageRows_filterMap_eq (l : List (String × List (String × Nat))) :
    l.filterMap (fun kv =>
        if assigneeTotal kv.2 = 0 then none else some (kv.1, percentValues kv.2))
      = (l.filter (fun kv => !(assigneeTotal kv.2 == 0))).map
          (fun kv => (kv.1, percentValues kv.2)) := by
  induction l with
  | nil => rfl
  | cons x xs ih =>
    by_cases hx : assigneeTotal x.2 = 0 <;>
      simp [List.filterMap_cons, List.filter_cons, hx, ih]

/-- Every zero-initialised bucket list reads 0 in every column. -/
theorem bucketVal_map_zero (l : List String) (st : String) :
    bucketVal (l.map (fun s => (s, 0))) st = 0 := by
  induction l with
  | nil => rfl
  | cons x xs ih =>
    simp only [List.map_cons, bucketVal, List.find?_cons]
    split
    · rfl
    · exact ih

/-- The fresh all-zero bucket row reads 0 in every column. -/
theorem bucketVal_zeroBuckets (st : String) : bucketVal zeroBuckets st = 0 :=
  bucketVal_map_zero tsStates st

/-- Appending a fresh all-zero assignee row changes no bucket read. -/
theorem lookupBucket_append_zero (table : List (String × List (String × Nat)))
    (aname nm st : String) :
    lookupBucket (table ++ [(aname, zeroBuckets)]) nm st = lookupBucket table nm st := by
  unfold lookupBucket
  rw [List.find?_append]
  cases hf : table.find? (fun kv => kv.1 == nm) with
  | some kv => simp
  | none =>
    cases hnm : ((aname : String) == nm) with
    | false => simp [List.find?_cons, hnm]
    | true => simp [List.find?_cons, hnm, bucketVal_zeroBuckets]

/-- The property the specification claims for zero-total assignees: every
assignee appearing in the stats, even with zero total points, receives a
percentage row (with value 0 rather than NaN). -/
def zeroTotalAssigneeGetsZeroPct : Prop :=
  ∀ (tickets : List RTicket) (kv : String × List (String × Nat)),
    kv ∈ (computeStats tickets).1 → assigneeTotal kv.2 = 0 →
    ∃ row ∈ percentageRowsVals tickets, row.1 = kv.1

/-- C8 counterexample: a ticket with no estimate puts its assignee in the stats
with a zero bucket total, and the percentage table omits that assignee's row
entirely — no 0-percent row is produced, refuting the claimed `0 (not NaN)`
behaviour. -/
theorem zero_total_assignee_row_omitted : ¬ zeroTotalAssigneeGetsZeroPct := by
  intro h
  obtain ⟨row, hmem, -⟩ := h
    [⟨"t9", "Fix bug", "Done", none, some "DEV-9", none, some ⟨"u9", "Bob", none⟩⟩]
    ("Bob", zeroBuckets) (by decide) (by decide)
  rw [show percentageRowsVals
      [⟨"t9", "Fix bug", "Done", none, some "DEV-9", none, some ⟨"u9", "Bob", none⟩⟩]
      = [] from by decide] at hmem
  simp at hmem

/-- C8 amended: the release-document aggregation satisfies — total story points
is the sum of estimates with absent treated as 0; every stats row carries
exactly the tracked bucket columns; a ticket with an untracked status adds its
points to the total but leaves every bucket and the totals row unchanged; the
percentage table consists of the rows with non-zero bucket totals (zero-total
assignees are omitted rather than shown as 0 or NaN), each row's Done column
being Done-bucket points over that assignee's bucket total; and on the concrete
example [5 Done Alice, 3 In Progress Alice, 8 Todo unassigned] Alice's total is
8, Alice's Done percentage is 62.5, the grand total is 16 and the Done bucket
total is 5. -/
theorem story_points_aggregation_amended :
    (∀ tickets : List RTicket,
      totalStoryPoints tickets = (tickets.map (fun t => t.estimate.getD 0)).sum) ∧
    (∀ (tickets : List RTicket) (kv : String × List (String × Nat)),
      kv ∈ (computeStats tickets).1 → kv.2.map Prod.fst = tsStates) ∧
    (∀ (tickets : List RTicket) (t : RTicket), tsStates.contains t.state = false →
      totalStoryPoints (tickets ++ [t]) = totalStoryPoints tickets + t.estimate.getD 0 ∧
      (computeStats (tickets ++ [t])).2 = (computeStats tickets).2 ∧
      ∀ nm st, lookupBucket (computeStats (tickets ++ [t])).1 nm st
        = lookupBucket (computeStats tickets).1 nm st) ∧
    (∀ tickets : List RTicket, percentageRowsVals tickets
      = ((computeStats tickets).1.filter (fun kv => !(assigneeTotal kv.2 == 0))).map
          (fun kv => (kv.1, percentValues kv.2))) ∧
    (∀ b : List (String × Nat), (percentValues b).getLast? = some (donePercentage b)) ∧
    (totalStoryPoints
        [⟨"t1", "Story A", "Done", none, none, some 5, some ⟨"u1", "Alice", none⟩⟩,
         ⟨"t2", "Story B", "In Progress", none, none, some 3, some ⟨"u1", "Alice", none⟩⟩,
         ⟨"t3", "Story C", "Todo", none, none, some 8, none⟩] = 16 ∧
      ((computeStats
        [⟨"t1", "Story A", "Done", none, none, some 5, some ⟨"u1", "Alice", none⟩⟩,
         ⟨"t2", "Story B", "In Progress", none, none, some 3, some ⟨"u1", "Alice", none⟩⟩,
         ⟨"t3", "Story C", "Todo", none, none, some 8, none⟩]).1.find?
          (fun kv => kv.1 == "Alice")).map (fun kv => assigneeTotal kv.2) = some 8 ∧
      ((computeStats
        [⟨"t1", "Story A", "Done", none, none, some 5, some ⟨"u1", "Alice", none⟩⟩,
         ⟨"t2", "Story B", "In Progress", none, none, some 3, some ⟨"u1", "Alice", none⟩⟩,
         ⟨"t3", "Story C", "Todo", none, none, some 8, none⟩]).1.find?
          (fun kv => kv.1 == "Alice")).map (fun kv => donePercentage kv.2)
        = some ((125 : Rat) / 2) ∧
      assigneeTotal (computeStats
        [⟨"t1", "Story A", "Done", none, none, some 5, some ⟨"u1", "Alice", none⟩⟩,
         ⟨"t2", "Story B", "In Progress", none, none, some 3, some ⟨"u1", "Alice", none⟩⟩,
         ⟨"t3", "Story C", "Todo", none, none, some 8, none⟩]).2 = 16 ∧
      bucketVal (computeStats
        [⟨"t1", "Story A", "Done", none, none, some 5, some ⟨"u1", "Alice", none⟩⟩,
         ⟨"t2", "Story B", "In Progress", none, none, some 3, some ⟨"u1", "Alice", none⟩⟩,
         ⟨"t3", "Story C", "Todo", none, none, some 8, none⟩]).2 "Done" = 5) := by
  refine ⟨?_, ?_, ?_, ?_, ?_, ?_⟩
  · intro tickets
    simpa [totalStoryPoints] using foldl_add_eq_sum (fun t => t.estimate.getD 0) tickets 0
  · intro tickets kv hkv
    exact statsTable_keys tickets ([], zeroBuckets) (by simp) kv hkv
  · intro tickets t hun
    have hsplit : computeStats (tickets ++ [t]) = statsStep (computeStats tickets) t := by
      simp [computeStats, List.foldl_append]
    have htot : totalStoryPoints (tickets ++ [t])
        = totalStoryPoints tickets + t.estimate.getD 0 := by
      simp [totalStoryPoints, List.foldl_append]
    refine ⟨htot, ?_, ?_⟩
    · rw [hsplit]
      unfold statsStep
      dsimp only
      rw [hun]
      simp
    · intro nm st
      rw [hsplit]
      unfold statsStep
      dsimp only
      rw [hun]
      simp only [Bool.false_eq_true, if_false]
      split
      · rfl
      · exact lookupBucket_append_zero _ _ nm st
  · intro tickets
    exact percentageRows_filterMap_eq (computeStats tickets).1
  · intro b
    rfl
  · refine ⟨by decide, by decide, ?_, by decide, by decide⟩
    rw [show (computeStats
        [⟨"t1", "Story A", "Done", none, none, some 5, some ⟨"u1", "Alice", none⟩⟩,
         ⟨"t2", "Story B", "In Progress", none, none, some 3, some ⟨"u1", "Alice", none⟩⟩,
         ⟨"t3", "Story C", "Todo", none, none, some 8, none⟩]).1.find?
          (fun kv => kv.1 == "Alice")
        = some ("Alice", [("Todo", 0), ("In Progress", 3), ("DEV Review", 0),
            ("QA Testing", 0), ("Done", 5)]) from by decide]
    show some (donePercentage [("Todo", 0), ("In Progress", 3), ("DEV Review", 0),
      ("QA Testing", 0), ("Done", 5)]) = some ((125 : Rat) / 2)
    have h5 : bucketVal [("Todo", 0), ("In Progress", 3), ("DEV Review", 0),
      ("QA Testing", 0), ("Done", 5)] "Done" = 5 := by decide
    have h8 : assigneeTotal [("Todo", 0), ("In Progress", 3), ("DEV Review", 0),
      ("QA Testing", 0), ("Done", 5)] = 8 := by decide
    rw [show donePercentage [("Todo", 0), ("In Progress", 3), ("DEV Review", 0),
        ("QA Testing", 0), ("Done", 5)]
      = ((bucketVal [("Todo", 0), ("In Progress", 3), ("DEV Review", 0),
          ("QA Testing", 0), ("Done", 5)] "Done" : Rat) /
         (assigneeTotal [("Todo", 0), ("In Progress", 3), ("DEV Review", 0),
          ("QA Testing", 0), ("Done", 5)] : Rat)) * 100 from rfl, h5, h8]
    norm_num

/-- C8 amended witness: appending a `Cancelled` ticket adds its points to the
total but leaves the bucket columns unchanged. -/
theorem story_points_aggregation_amended_witness :
    tsStates.contains "Cancelled" = false ∧
    totalStoryPoints ([⟨"t1", "Story A", "Done", none, none, some 5,
        some ⟨"u1", "Alice", none⟩⟩] ++ [⟨"t4", "Hotfix", "Cancelled", none, none,
        some 4, none⟩])
      = totalStoryPoints [⟨"t1", "Story A", "Done", none, none, some 5,
          some ⟨"u1", "Alice", none⟩⟩] +
        (⟨"t4", "Hotfix", "Cancelled", none, none, some 4, none⟩ : RTicket).estimate.getD 0 ∧
    lookupBucket (computeStats ([⟨"t1", "Story A", "Done", none, none, some 5,
        some ⟨"u1", "Alice", none⟩⟩] ++ [⟨"t4", "Hotfix", "Cancelled", none, none,
        some 4, none⟩])).1 "Unassigned" "Done"
      = lookupBucket (computeStats [⟨"t1", "Story A", "Done", none, none, some 5,
          some ⟨"u1", "Alice", none⟩⟩]).1 "Unassigned" "Done" :=
  ⟨by decide,
    (story_points_aggregation_amended.2.2.1
      [⟨"t1", "Story A", "Done", none, none, some 5, some ⟨"u1", "Alice", none⟩⟩]
      ⟨"t4", "Hotfix", "Cancelled", none, none, some 4, none⟩ (by decide)).1,
    (story_points_aggregation_amended.2.2.1
      [⟨"t1", "Story A", "Done", none, none, some 5, some ⟨"u1", "Alice", none⟩⟩]
      ⟨"t4", "Hotfix", "Cancelled", none, none, some 4, none⟩ (by decide)).2.2
      "Unassigned" "Done"⟩

/-- The idempotence property the specification claims of the retrospective
generator: identical cycle data, issue lists and comment sets yield an
identical document body apart from the trailing generation timestamp (here: the
whole main part before the `Generated:` footer is independent of the
generation instant). -/
def retroIdempotentUpToTimestamp : Prop :=
  ∀ (cycleData : CycleData) (issues : List CycleIssue)
    (fetchComments : String → Except String (List RComment)) (now₁ now₂ : String),
    retroMainOf cycleData issues fetchComments now₁
      = retroMainOf cycleData issues fetchComments now₂

set_option maxHeartbeats 4000000 in
/-- C9 counterexample: for a cycle without `completedAt`, the `completed_at:`
front-matter line falls back to the generation date, so two runs on different
dates differ before the trailing timestamp — refuting byte-identity up to the
footer. -/
theorem retro_completed_at_fallback_not_idempotent : ¬ retroIdempotentUpToTimestamp := by
  intro h
  have he := h ⟨"c1", some "Sprint 7", none, none, none, none⟩ [] (fun _ => .ok [])
    "2024-01-01T10:00:00.000Z" "2024-01-02T09:00:00.000Z"
  exact absurd he (by decide)

/-- A truthy optional string ignores the `||` default. -/
theorem jsOr_of_truthy (o : Option String) (h : truthyS o = true) (d d' : String) :
    jsOr o d = jsOr o d' := by
  simp [jsOr, h]

/-- C9 amended: when the cycle's `completedAt` is present (non-empty), the whole
retrospective body before the `Generated:` footer is the same for any two
generation instants — the only other clock dependence is the `completed_at`
fallback, exercised exactly when `completedAt` is absent — and the full content
is that main part followed by the trailing timestamp footer. -/
theorem retro_idempotent_with_completed_at
    (cycleData : CycleData) (issues : List CycleIssue)
    (fetchComments : String → Except String (List RComment)) (now₁ now₂ : String)
    (hc : truthyS cycleData.completedAt = true) :
    retroMainOf cycleData issues fetchComments now₁
      = retroMainOf cycleData issues fetchComments now₂ ∧
    ∀ now, retroContentOf cycleData issues fetchComments now
      = retroMainOf cycleData issues fetchComments now
        ++ "Generated: " ++ now ++ "\nCycle ID: " ++ cycleData.id ++ "\n" := by
  constructor
  · unfold retroMainOf retroMain
    rw [jsOr_of_truthy cycleData.completedAt hc (datePart now₁) (datePart now₂)]
  · intro now
    rfl

/-- C9 amended witness: a completed cycle regenerated at two different instants
produces the same main body. -/
theorem retro_idempotent_with_completed_at_witness :
    retroMainOf ⟨"c1", some "Sprint 7", none, some "2024-02-01T00:00:00.000Z", none, none⟩
      [] (fun _ => .ok []) "2024-03-01T10:00:00.000Z"
    = retroMainOf ⟨"c1", some "Sprint 7", none, some "2024-02-01T00:00:00.000Z", none, none⟩
      [] (fun _ => .ok []) "2024-03-02T09:00:00.000Z" :=
  (retro_idempotent_with_completed_at
    ⟨"c1", some "Sprint 7", none, some "2024-02-01T00:00:00.000Z", none, none⟩
    [] (fun _ => .ok []) "2024-03-01T10:00:00.000Z" "2024-03-02T09:00:00.000Z"
    (by decide)).1

end LinearConnector
